import Mathlib

/-!
Shallow embedding of the payload-validation and template-registry subsystem of
the `pegasus-virus-qrcode` repository (files `virs_qr/security.py` and
`virs_qr/templates.py`), together with the parts of the CPython 3.11 standard
library the code calls into (`re` pattern matching for the fixed malicious
patterns, `urllib.parse.urlparse`, `urlunparse`, `quote`, `quote_plus`,
`urlencode`, and the `json` module's `loads`/`dumps`).

Scope of the embedding: strings are modelled by Lean `String` (a list of
Unicode scalar values, as in Python where `len` counts code points).  The
Unicode-sensitive behaviours of Python (`str.lower`, `\w`, `\s`,
`str.isspace`, IDNA/NFKC netloc normalisation, lone surrogates in JSON string
escapes, JSON floats and NaN/Infinity literals) are modelled on their ASCII
fragment, which is the fragment every claim exercises; where the model must
choose a behaviour outside that fragment it chooses the conservative one
(treating the input as invalid), so that every success the model predicts is a
success of the real code.
-/

deriving instance DecidableEq for Except

namespace VirsQR

/-! ## Character classes (ASCII fragment of CPython 3.11 semantics)

`isPyWS` is the set of ASCII characters `c` with `c.isspace()` true in Python
(the same set is matched by the regex class `\s` for ASCII input):
0x09-0x0d, 0x1c-0x1f and 0x20.  `isWordChar` is the ASCII part of the regex
class `\w`: letters, digits and underscore. -/

def isPyWS (c : Char) : Bool :=
  (9 ≤ c.toNat && c.toNat ≤ 13) || (28 ≤ c.toNat && c.toNat ≤ 32)

def isWordChar (c : Char) : Bool :=
  c.isAlphanum || c == '_'

/-- Lowercase a string character by character (ASCII fragment of `str.lower`,
which is also how `re.IGNORECASE` matching of the all-lowercase malicious
patterns is realised below). -/
def pyLower (s : String) : String := String.mk (s.data.map Char.toLower)

def pyUpper (s : String) : String := String.mk (s.data.map Char.toUpper)

/-- If `pat` is a prefix of `l`, return the rest of `l` after that prefix. -/
def dropPrefixChars : List Char → List Char → Option (List Char)
  | [], l => some l
  | _ :: _, [] => none
  | p :: ps, c :: cs => if p == c then dropPrefixChars ps cs else none

/-- Substring search: does `pat` occur contiguously anywhere in `l`? -/
def containsSub (pat : List Char) : List Char → Bool
  | [] => (dropPrefixChars pat []).isSome
  | c :: cs => (dropPrefixChars pat (c :: cs)).isSome || containsSub pat cs

/-! ## The malicious-pattern matchers of `virs_qr/security.py`

`_MALICIOUS_PATTERNS` compiles, with `re.IGNORECASE`:
`javascript:`, `data:text/html`, `<\s*script\b`, `\bon\w+\s*=`, `cmd\.exe`,
`powershell\.exe`, `/etc/passwd`, `\brm\s+-rf\b`, `\bcurl\s+[^\s]+\s*\|\s*sh\b`.
Each pattern is realised as a matcher at a given start position; the scanner
`scanMal` tries every start position as `re.search` does, tracking whether the
previous character is a word character (for the `\b` boundaries). -/

/-- Word boundary after a pattern ending in a word character: the next
character is absent or not a word character. -/
def noWordAhead : List Char → Bool
  | [] => true
  | c :: _ => !isWordChar c

/-- Matcher for `<\s*script\b` at the head of `l`. -/
def matchScriptAt (l : List Char) : Bool :=
  match l with
  | '<' :: rest =>
    match dropPrefixChars ['s', 'c', 'r', 'i', 'p', 't'] (rest.dropWhile isPyWS) with
    | some rest2 => noWordAhead rest2
    | none => false
  | _ => false

/-- Matcher for `on\w+\s*=` at the head of `l` (the caller checks the `\b`
before `on`). -/
def matchOnAttrAt (l : List Char) : Bool :=
  match dropPrefixChars ['o', 'n'] l with
  | some rest =>
    !(rest.takeWhile isWordChar).isEmpty &&
      (match (rest.dropWhile isWordChar).dropWhile isPyWS with
       | '=' :: _ => true
       | _ => false)
  | none => false

/-- Matcher for `rm\s+-rf\b` at the head of `l` (the caller checks the `\b`
before `rm`). -/
def matchRmRfAt (l : List Char) : Bool :=
  match dropPrefixChars ['r', 'm'] l with
  | some rest =>
    (match rest with
     | c :: _ =>
       isPyWS c &&
         (match dropPrefixChars ['-', 'r', 'f'] (rest.dropWhile isPyWS) with
          | some rest2 => noWordAhead rest2
          | none => false)
     | [] => false)
  | none => false

/-- Matcher for `\s*\|\s*sh\b` at the head of `l`. -/
def matchPipeShTail (l : List Char) : Bool :=
  match l.dropWhile isPyWS with
  | '|' :: r =>
    match dropPrefixChars ['s', 'h'] (r.dropWhile isPyWS) with
    | some rest2 => noWordAhead rest2
    | none => false
  | _ => false

/-- Matcher for `[^\s]+\s*\|\s*sh\b` at the head of `l`, with the regex
backtracking over how many non-space characters `[^\s]+` consumes. -/
def matchCurlBody : List Char → Bool
  | [] => false
  | c :: cs => !isPyWS c && (matchPipeShTail cs || matchCurlBody cs)

/-- Matcher for `curl\s+[^\s]+\s*\|\s*sh\b` at the head of `l` (the caller
checks the `\b` before `curl`). -/
def matchCurlAt (l : List Char) : Bool :=
  match dropPrefixChars ['c', 'u', 'r', 'l'] l with
  | some rest =>
    (match rest with
     | c :: _ => isPyWS c && matchCurlBody (rest.dropWhile isPyWS)
     | [] => false)
  | none => false

/-- All nine pattern matchers tried at one start position.  `prevNonWord` is
true when the previous character is absent or not a word character, which is
exactly when `\b` matches before a word character. -/
def matchMalAt (prevNonWord : Bool) (l : List Char) : Bool :=
  (dropPrefixChars "javascript:".data l).isSome ||
  (dropPrefixChars "data:text/html".data l).isSome ||
  matchScriptAt l ||
  (prevNonWord && matchOnAttrAt l) ||
  (dropPrefixChars "cmd.exe".data l).isSome ||
  (dropPrefixChars "powershell.exe".data l).isSome ||
  (dropPrefixChars "/etc/passwd".data l).isSome ||
  (prevNonWord && matchRmRfAt l) ||
  (prevNonWord && matchCurlAt l)

/-- Scan every start position, as `re.search` does. -/
def scanMal (prevNonWord : Bool) : List Char → Bool
  | [] => matchMalAt prevNonWord []
  | c :: cs => matchMalAt prevNonWord (c :: cs) || scanMal (!isWordChar c) cs

/-- Does any of the nine compiled patterns of `_MALICIOUS_PATTERNS` match
somewhere in `s` (case-insensitively)? -/
def hasMaliciousPattern (s : String) : Bool :=
  scanMal true ((pyLower s).data)

/-! ## `virs_qr/security.py` -/

def MAX_PAYLOAD_LENGTH : Nat := 4096

/-- Embedding of `is_malicious_request`.  The `isinstance(data, str)` guard of
the Python source cannot fire in this typed embedding, where the argument is
always a string. -/
def is_malicious_request (data : String) : Bool :=
  decide (data.length > MAX_PAYLOAD_LENGTH) || hasMaliciousPattern data

inductive ValidationError where
  | emptyPayload
  | payloadTooLarge
  | maliciousContent
  deriving DecidableEq, Repr

/-- Embedding of `validate_payload`.  `not data.strip()` holds exactly when
every character of `data` is whitespace.  The `isinstance` guard is again
unrepresentable in the typed embedding. -/
def validate_payload (data : String) : Except ValidationError Unit :=
  if data.data.all isPyWS then Except.error ValidationError.emptyPayload
  else if data.length > MAX_PAYLOAD_LENGTH then Except.error ValidationError.payloadTooLarge
  else if is_malicious_request data then Except.error ValidationError.maliciousContent
  else Except.ok ()

/-! ## Parameter mappings and registry errors (`virs_qr/templates.py`)

A Python `Mapping[str, str]` with unique keys is modelled as an association
list looked up by first match. -/

abbrev Params := List (String × String)

def getParam (p : Params) (k : String) : Option String :=
  (p.find? (fun kv => kv.1 == k)).map (fun kv => kv.2)

inductive BuildError where
  | unknownTemplate (key : String)
  | missingParams (key : String) (missing : List String)
  | missingParam (key : String)
  | jsonDecodeError
  | invalidIPv6URL
  | invalidBracketedHost
  | invalidNetloc
  deriving DecidableEq, Repr

/-- Embedding of `_require`: raises `ValueError("Missing required param: k")`
when `k` is absent or maps to the empty string. -/
def pyRequire (p : Params) (k : String) : Except BuildError String :=
  match getParam p k with
  | some v => if v == "" then Except.error (BuildError.missingParam k) else Except.ok v
  | none => Except.error (BuildError.missingParam k)

/-- Embedding of `_optional` with an explicit default (`params.get(key, default)`). -/
def pyOptionalD (p : Params) (k d : String) : String :=
  (getParam p k).getD d

/-- Embedding of `_optional` with the default `""`. -/
def pyOptional (p : Params) (k : String) : String :=
  pyOptionalD p k ""

/-! ## Python string helpers used by the builders -/

/-- Embedding of `sep.join(items)`. -/
def pyJoin (sep : String) : List String → String
  | [] => ""
  | [x] => x
  | x :: y :: rest => x ++ sep ++ pyJoin sep (y :: rest)

/-- Embedding of `s.lstrip(chars)` for an explicit character set. -/
def lstripChars (s : String) (cs : List Char) : String :=
  String.mk (s.data.dropWhile (fun c => cs.contains c))

/-- Embedding of `s.rstrip(chars)` for an explicit character set. -/
def rstripChars (s : String) (cs : List Char) : String :=
  String.mk ((s.data.reverse.dropWhile (fun c => cs.contains c)).reverse)

/-- Embedding of `s.removeprefix(pre)`. -/
def removePrefixStr (s pre : String) : String :=
  match dropPrefixChars pre.data s.data with
  | some rest => String.mk rest
  | none => s

/-! ## `urllib.parse` of CPython 3.11

Only the functions the templates call are embedded: `quote`, `quote_plus`,
`urlencode`, `urlparse`/`urlunparse` (via `urlsplit`/`urlunsplit`).  The
`_checknetloc` NFKC check passes unconditionally for all-ASCII netlocs; the
model conservatively reports an error for a non-ASCII netloc (CPython rejects
only those whose NFKC normalisation introduces a delimiter). -/

/-- The characters never quoted by `urllib.parse.quote` (`_ALWAYS_SAFE`). -/
def alwaysSafe (c : Char) : Bool :=
  c.isAlphanum || c == '_' || c == '.' || c == '-' || c == '~'

/-- Uppercase hexadecimal digit, as used in percent-escapes. -/
def hexDigitUpper (n : Nat) : Char :=
  if n < 10 then Char.ofNat (48 + n) else Char.ofNat (55 + n)

/-- UTF-8 encoding of one scalar value, as a list of byte values. -/
def utf8Bytes (c : Char) : List Nat :=
  let v := c.toNat
  if v < 128 then [v]
  else if v < 2048 then [192 + v / 64, 128 + v % 64]
  else if v < 65536 then [224 + v / 4096, 128 + (v / 64) % 64, 128 + v % 64]
  else [240 + v / 262144, 128 + (v / 4096) % 64, 128 + (v / 64) % 64, 128 + v % 64]

def pctEscape (b : Nat) : List Char :=
  ['%', hexDigitUpper (b / 16), hexDigitUpper (b % 16)]

/-- One character under `quote` with the given extra safe characters. -/
def quoteChar (safe : List Char) (c : Char) : List Char :=
  if alwaysSafe c || safe.contains c then [c]
  else ((utf8Bytes c).map pctEscape).flatten

/-- Embedding of `urllib.parse.quote(s)` with the default `safe='/'`. -/
def pyQuote (s : String) : String :=
  String.mk ((s.data.map (quoteChar ['/'])).flatten)

/-- Embedding of `urllib.parse.quote_plus(s)` with the default `safe=''`:
spaces become `+`, everything unsafe (including `/`) is percent-escaped. -/
def pyQuotePlus (s : String) : String :=
  String.mk ((s.data.map (fun c => if c == ' ' then ['+'] else quoteChar [] c)).flatten)

/-- Embedding of `urllib.parse.urlencode` on a mapping of string keys to
string values, in insertion order (the default `quote_via=quote_plus`). -/
def pyUrlencode (q : List (String × String)) : String :=
  pyJoin "&" (q.map (fun kv => pyQuotePlus kv.1 ++ "=" ++ pyQuotePlus kv.2))

structure ParseResult where
  scheme : String
  netloc : String
  path : String
  params : String
  query : String
  fragment : String
  deriving DecidableEq, Repr

/-- The characters valid in scheme names (`scheme_chars`). -/
def schemeChar (c : Char) : Bool :=
  c.isAlphanum || c == '+' || c == '-' || c == '.'

/-- Scheme extraction of `urlsplit`: if everything before the first `:` is a
non-empty run of scheme characters starting with an ASCII letter, that part
(lowercased) is the scheme. -/
def splitScheme (l : List Char) : String × List Char :=
  let p := l.takeWhile schemeChar
  match l.drop p.length with
  | ':' :: r =>
    match p with
    | c :: _ => if c.isAlpha then (String.mk (p.map Char.toLower), r) else ("", l)
    | [] => ("", l)
  | _ => ("", l)

/-- `_splitnetloc`: the netloc extends to the first of `/`, `?` or `#`. -/
def netlocDelim (c : Char) : Bool :=
  c == '/' || c == '?' || c == '#'

/-- Split at the first occurrence of `d`, if any (`str.split(d, 1)` guarded by
`d in s`). -/
def splitFirst (l : List Char) (d : Char) : List Char × List Char :=
  if l.contains d then (l.takeWhile (fun c => !(c == d)), (l.dropWhile (fun c => !(c == d))).drop 1)
  else (l, [])

/-- Embedding of `urlsplit(url)` (CPython 3.11.6, default arguments): strips
leading C0-control-or-space characters, removes tab/CR/LF, extracts scheme,
netloc (with the unbalanced-bracket IPv6 check), fragment and query.
`_check_bracketed_host` validates a `[...]` host as an IPv6 or IPvFuture
address; the model conservatively rejects every bracketed host, so every
success the model predicts is a success of CPython.  `_checknetloc` is
modelled as in the header comment. -/
def urlsplitE (url : String) : Except BuildError (String × String × String × String × String) :=
  let l := (url.data.dropWhile (fun c => c.toNat ≤ 32)).filter
    (fun c => !(c == '\t' || c == '\r' || c == '\n'))
  let sl := splitScheme l
  let scheme := sl.1
  match sl.2 with
  | '/' :: '/' :: r =>
    let netloc := r.takeWhile (fun c => !netlocDelim c)
    let rest := r.dropWhile (fun c => !netlocDelim c)
    if !(netloc.contains '[' == netloc.contains ']') then
      Except.error BuildError.invalidIPv6URL
    else if netloc.contains '[' then
      Except.error BuildError.invalidBracketedHost
    else
      let fr := splitFirst rest '#'
      let qu := splitFirst fr.1 '?'
      if netloc.all (fun c => c.toNat < 128) then
        Except.ok (scheme, String.mk netloc, String.mk qu.1, String.mk qu.2, String.mk fr.2)
      else Except.error BuildError.invalidNetloc
  | l2 =>
    let fr := splitFirst l2 '#'
    let qu := splitFirst fr.1 '?'
    Except.ok (scheme, "", String.mk qu.1, String.mk qu.2, String.mk fr.2)

def usesParamsList : List String :=
  ["", "ftp", "hdl", "prospero", "http", "imap", "https", "shttp", "rtsp",
   "rtspu", "sip", "sips", "mms", "sftp", "tel"]

def usesNetlocList : List String :=
  ["", "ftp", "http", "gopher", "nntp", "telnet", "imap", "wais", "file",
   "mms", "https", "shttp", "snews", "prospero", "rtsp", "rtspu", "rsync",
   "svn", "svn+ssh", "sftp", "nfs", "git", "git+ssh", "ws", "wss"]

/-- Decompose `l` as `a ++ "/" ++ b` with `b` slash-free, if `l` contains a
slash (used by `_splitparams`, whose `;` search starts at the last `/`). -/
def splitLastSlash (l : List Char) : Option (List Char × List Char) :=
  let r := l.reverse
  let b := r.takeWhile (fun c => !(c == '/'))
  if b.length == r.length then none
  else some (((r.drop (b.length + 1)).reverse), b.reverse)

/-- Embedding of `_splitparams`. -/
def splitparams (l : List Char) : List Char × List Char :=
  match splitLastSlash l with
  | some ab =>
    if ab.2.contains ';' then
      let s := splitFirst ab.2 ';'
      (ab.1 ++ '/' :: s.1, s.2)
    else (l, [])
  | none => splitFirst l ';'

/-- Embedding of `urlparse(url)` (default arguments). -/
def urlparseE (url : String) : Except BuildError ParseResult :=
  match urlsplitE url with
  | Except.ok (scheme, netloc, path, query, fragment) =>
    if usesParamsList.contains scheme && path.data.contains ';' then
      let pp := splitparams path.data
      Except.ok (ParseResult.mk scheme netloc (String.mk pp.1) (String.mk pp.2) query fragment)
    else
      Except.ok (ParseResult.mk scheme netloc path "" query fragment)
  | Except.error e => Except.error e

/-- Kernel-reducible `startsWith` on the character lists of the strings. -/
def strStartsWith (s pre : String) : Bool :=
  pre.data.isPrefixOf s.data

/-- Embedding of `urlunsplit`. -/
def urlunsplit (scheme netloc url query fragment : String) : String :=
  let url :=
    if netloc != "" || (scheme != "" && usesNetlocList.contains scheme && !strStartsWith url "//")
    then
      let url := if url != "" && !strStartsWith url "/" then "/" ++ url else url
      "//" ++ netloc ++ url
    else url
  let url := if scheme != "" then scheme ++ ":" ++ url else url
  let url := if query != "" then url ++ "?" ++ query else url
  if fragment != "" then url ++ "#" ++ fragment else url

/-- Embedding of `urlunparse`. -/
def urlunparse (r : ParseResult) : String :=
  let url := if r.params != "" then r.path ++ ";" ++ r.params else r.path
  urlunsplit r.scheme r.netloc url r.query r.fragment

/-- Embedding of `_ensure_scheme` from `virs_qr/templates.py`. -/
def ensure_scheme (url scheme : String) : Except BuildError String :=
  match urlparseE url with
  | Except.ok parsed =>
    let parsed := if parsed.scheme == "" then { parsed with scheme := scheme } else parsed
    let parsed :=
      if !(pyLower parsed.scheme == pyLower scheme) then { parsed with scheme := scheme } else parsed
    Except.ok (urlunparse parsed)
  | Except.error e => Except.error e

/-! ## The `json` module of CPython (strict mode, as `json.loads`/`json.dumps`
are called by the `json` template)

The model covers JSON values whose numbers are integers.  Float literals
(a fraction or exponent part), the non-standard `NaN`/`Infinity`/`-Infinity`
literals, and `\uXXXX` escapes that denote lone surrogates are outside the
model: the parser reports failure on them (CPython accepts them), so every
parse the model accepts is accepted by CPython with the same value.  Object
members keep Python `dict` semantics: insertion order, with a duplicate key
updating the value in place. -/

mutual

inductive Json where
  | null
  | bool (b : Bool)
  | num (n : Int)
  | str (s : List Char)
  | arr (elems : JsonList)
  | obj (members : JsonMembers)

inductive JsonList where
  | nil
  | cons (hd : Json) (tl : JsonList)

inductive JsonMembers where
  | nil
  | cons (key : List Char) (val : Json) (tl : JsonMembers)

end

def listToJsonList : List Json → JsonList
  | [] => JsonList.nil
  | x :: r => JsonList.cons x (listToJsonList r)

def listToJsonMembers : List (List Char × Json) → JsonMembers
  | [] => JsonMembers.nil
  | kv :: r => JsonMembers.cons kv.1 kv.2 (listToJsonMembers r)

/-- JSON whitespace (space, tab, newline, carriage return). -/
def jsonWS (c : Char) : Bool :=
  c == ' ' || c == '\t' || c == '\n' || c == '\x0d'

def hexVal (c : Char) : Option Nat :=
  if '0' ≤ c && c ≤ '9' then some (c.toNat - 48)
  else if 'a' ≤ c && c ≤ 'f' then some (c.toNat - 87)
  else if 'A' ≤ c && c ≤ 'F' then some (c.toNat - 55)
  else none

def parse4hex : List Char → Option (Nat × List Char)
  | a :: b :: c :: d :: r =>
    match hexVal a, hexVal b, hexVal c, hexVal d with
    | some va, some vb, some vc, some vd => some (4096 * va + 256 * vb + 16 * vc + vd, r)
    | _, _, _, _ => none
  | _ => none

def escMap : Char → Option Char
  | '"' => some '"'
  | '\\' => some '\\'
  | '/' => some '/'
  | 'b' => some (Char.ofNat 8)
  | 'f' => some (Char.ofNat 12)
  | 'n' => some '\n'
  | 'r' => some '\x0d'
  | 't' => some '\t'
  | _ => none

/-- Parse the body of a JSON string after the opening quote (strict mode:
unescaped control characters below 0x20 are rejected).  Returns the decoded
characters and the input after the closing quote. -/
def parseJStr (fuel : Nat) (l : List Char) : Option (List Char × List Char) :=
  match fuel with
  | 0 => none
  | fuel + 1 =>
    match l with
    | [] => none
    | '"' :: r => some ([], r)
    | '\\' :: 'u' :: r =>
      match parse4hex r with
      | some (n, r2) =>
        if n < 55296 || 57344 ≤ n then
          (parseJStr fuel r2).map (fun p => (Char.ofNat n :: p.1, p.2))
        else if n < 56320 then
          match r2 with
          | '\\' :: 'u' :: r3 =>
            match parse4hex r3 with
            | some (m, r4) =>
              if 56320 ≤ m && m < 57344 then
                (parseJStr fuel r4).map
                  (fun p => (Char.ofNat (65536 + (n - 55296) * 1024 + (m - 56320)) :: p.1, p.2))
              else none
            | none => none
          | _ => none
        else none
      | none => none
    | '\\' :: e :: r =>
      match escMap e with
      | some c => (parseJStr fuel r).map (fun p => (c :: p.1, p.2))
      | none => none
    | c :: r =>
      if c.toNat < 32 then none
      else (parseJStr fuel r).map (fun p => (c :: p.1, p.2))

def digitsToNat (l : List Char) : Nat :=
  l.foldl (fun a c => 10 * a + (c.toNat - 48)) 0

/-- The integer part of the JSON number grammar: `0` or a nonzero digit
followed by digits. -/
def parseIntPart : List Char → Option (Nat × List Char)
  | '0' :: r => some (0, r)
  | c :: r =>
    if c.isDigit then
      let ds := r.takeWhile Char.isDigit
      some (digitsToNat (c :: ds), r.drop ds.length)
    else none
  | [] => none

def expTailDigit : List Char → Bool
  | '+' :: c :: _ => c.isDigit
  | '-' :: c :: _ => c.isDigit
  | c :: _ => c.isDigit
  | [] => false

/-- Does a fraction or exponent part follow (which would make the number a
float, outside the model)? -/
def hasFracOrExp : List Char → Bool
  | '.' :: c :: _ => c.isDigit
  | 'e' :: rest => expTailDigit rest
  | 'E' :: rest => expTailDigit rest
  | _ => false

def parseJNum (l : List Char) : Option (Json × List Char) :=
  match l with
  | '-' :: r =>
    match parseIntPart r with
    | some (n, rest) =>
      if hasFracOrExp rest then none else some (Json.num (-(n : Int)), rest)
    | none => none
  | _ =>
    match parseIntPart l with
    | some (n, rest) =>
      if hasFracOrExp rest then none else some (Json.num (n : Int), rest)
    | none => none

/-- Python `dict` insertion: an existing key keeps its position and gets the
new value; a new key is appended. -/
def dictInsert (m : List (List Char × Json)) (k : List Char) (v : Json) :
    List (List Char × Json) :=
  match m with
  | [] => [(k, v)]
  | kv :: rest => if kv.1 == k then (kv.1, v) :: rest else kv :: dictInsert rest k v

mutual

/-- The value scanner of `json.loads` (strict).  `fuel` strictly decreases on
every nested call; the top-level entry point supplies ample fuel. -/
def parseJValue : Nat → List Char → Option (Json × List Char)
  | 0, _ => none
  | fuel + 1, l =>
    match l with
    | '"' :: r => (parseJStr (r.length + 1) r).map (fun p => (Json.str p.1, p.2))
    | '\x7b' :: r => parseJObjFirst fuel (r.dropWhile jsonWS)
    | '[' :: r => parseJArrFirst fuel (r.dropWhile jsonWS)
    | 'n' :: 'u' :: 'l' :: 'l' :: r => some (Json.null, r)
    | 't' :: 'r' :: 'u' :: 'e' :: r => some (Json.bool true, r)
    | 'f' :: 'a' :: 'l' :: 's' :: 'e' :: r => some (Json.bool false, r)
    | _ => parseJNum l

def parseJArrFirst : Nat → List Char → Option (Json × List Char)
  | 0, _ => none
  | fuel + 1, l =>
    match l with
    | ']' :: r => some (Json.arr JsonList.nil, r)
    | _ => parseJArrLoop fuel l []

def parseJArrLoop : Nat → List Char → List Json → Option (Json × List Char)
  | 0, _, _ => none
  | fuel + 1, l, acc =>
    match parseJValue fuel l with
    | some (v, r) =>
      (match r.dropWhile jsonWS with
       | ']' :: r2 => some (Json.arr (listToJsonList (acc ++ [v])), r2)
       | ',' :: r2 => parseJArrLoop fuel (r2.dropWhile jsonWS) (acc ++ [v])
       | _ => none)
    | none => none

def parseJObjFirst : Nat → List Char → Option (Json × List Char)
  | 0, _ => none
  | fuel + 1, l =>
    match l with
    | '\x7d' :: r => some (Json.obj JsonMembers.nil, r)
    | _ => parseJObjLoop fuel l []

def parseJObjLoop : Nat → List Char → List (List Char × Json) → Option (Json × List Char)
  | 0, _, _ => none
  | fuel + 1, l, acc =>
    match l with
    | '"' :: r =>
      (match parseJStr (r.length + 1) r with
       | some (k, r2) =>
         (match r2.dropWhile jsonWS with
          | ':' :: r3 =>
            (match parseJValue fuel (r3.dropWhile jsonWS) with
             | some (v, r4) =>
               (match r4.dropWhile jsonWS with
                | '\x7d' :: r5 => some (Json.obj (listToJsonMembers (dictInsert acc k v)), r5)
                | ',' :: r5 => parseJObjLoop fuel (r5.dropWhile jsonWS) (dictInsert acc k v)
                | _ => none)
             | none => none)
          | _ => none)
       | none => none)
    | _ => none

end

/-- Embedding of `json.loads` (on the modelled fragment): optional leading and
trailing whitespace around exactly one value. -/
def jsonLoads (s : String) : Option Json :=
  let l := s.data.dropWhile jsonWS
  match parseJValue (4 * (l.length + 2)) l with
  | some (v, rest) => if (rest.dropWhile jsonWS).isEmpty then some v else none
  | none => none

def hexDigitLower (n : Nat) : Char :=
  if n < 10 then Char.ofNat (48 + n) else Char.ofNat (87 + n)

/-- The escaping `json.dumps` applies inside string literals with
`ensure_ascii=False`: quote, backslash and control characters only. -/
def escapeJsonChar (c : Char) : List Char :=
  if c == '"' then ['\\', '"']
  else if c == '\\' then ['\\', '\\']
  else if c == Char.ofNat 8 then ['\\', 'b']
  else if c == '\t' then ['\\', 't']
  else if c == '\n' then ['\\', 'n']
  else if c == Char.ofNat 12 then ['\\', 'f']
  else if c == '\x0d' then ['\\', 'r']
  else if c.toNat < 32 then
    ['\\', 'u', '0', '0', hexDigitLower (c.toNat / 16), hexDigitLower (c.toNat % 16)]
  else [c]

/-- Decimal digits of a natural number, most significant first (the fuel is
ample: one digit is produced per step). -/
def natCharsAux (fuel n : Nat) (acc : List Char) : List Char :=
  match fuel with
  | 0 => acc
  | fuel + 1 =>
    let acc2 := Char.ofNat (48 + n % 10) :: acc
    if n < 10 then acc2 else natCharsAux fuel (n / 10) acc2

def natChars (n : Nat) : List Char :=
  natCharsAux (n + 1) n []

/-- Decimal rendering of an integer, as `repr` renders Python ints. -/
def intChars (n : Int) : List Char :=
  if n < 0 then '-' :: natChars n.natAbs else natChars n.natAbs

/-- Rendering of one object key together with its already-rendered value. -/
def dumpJKV (k : List Char) (vd : List Char) : List Char :=
  '"' :: ((k.map escapeJsonChar).flatten ++ ['"', ':'] ++ vd)

mutual

/-- Embedding of `json.dumps(v, separators=(",", ":"), ensure_ascii=False)`. -/
def dumpJson : Json → List Char
  | Json.null => ['n', 'u', 'l', 'l']
  | Json.bool true => ['t', 'r', 'u', 'e']
  | Json.bool false => ['f', 'a', 'l', 's', 'e']
  | Json.num n => intChars n
  | Json.str s => '"' :: ((s.map escapeJsonChar).flatten ++ ['"'])
  | Json.arr xs => '[' :: (dumpJList xs ++ [']'])
  | Json.obj ms => '\x7b' :: (dumpJMembers ms ++ ['\x7d'])

def dumpJList : JsonList → List Char
  | JsonList.nil => []
  | JsonList.cons x JsonList.nil => dumpJson x
  | JsonList.cons x (JsonList.cons y rest) =>
    dumpJson x ++ ',' :: dumpJList (JsonList.cons y rest)

def dumpJMembers : JsonMembers → List Char
  | JsonMembers.nil => []
  | JsonMembers.cons k v JsonMembers.nil => dumpJKV k (dumpJson v)
  | JsonMembers.cons k v (JsonMembers.cons k2 v2 rest) =>
    dumpJKV k (dumpJson v) ++ ',' :: dumpJMembers (JsonMembers.cons k2 v2 rest)

end

/-! ## The builder functions of `virs_qr/templates.py` -/

def EICAR_STRING : String :=
  "X5O!P%@AP[4\\PZX54(P^)7CC)7\x7d$EICAR-STANDARD-ANTIVIRUS-TEST-FILE!$H+H*"

def build_mailto (p : Params) : Except BuildError String := do
  let toAddr ← pyRequire p "to"
  let subject := pyOptional p "subject"
  let body := pyOptional p "body"
  let query : List (String × String) :=
    (if subject != "" then [("subject", subject)] else []) ++
    (if body != "" then [("body", body)] else [])
  pure ("mailto:" ++ toAddr ++ (if !query.isEmpty then "?" ++ pyUrlencode query else ""))

def build_matmsg (p : Params) : Except BuildError String := do
  let toAddr ← pyRequire p "to"
  let subject := pyOptional p "subject"
  let body := pyOptional p "body"
  pure ("MATMSG:TO:" ++ toAddr ++ ";SUB:" ++ subject ++ ";BODY:" ++ body ++ ";;")

def build_sms (p : Params) : Except BuildError String := do
  let number ← pyRequire p "number"
  let message := pyOptional p "message"
  if message != "" then pure ("SMSTO:" ++ number ++ ":" ++ message)
  else pure ("SMSTO:" ++ number ++ ":")

def build_wifi (p : Params) (auth : String) : Except BuildError String := do
  let ssid ← pyRequire p "ssid"
  let password := pyOptional p "password"
  let hidden := ["1", "true", "yes"].contains (pyLower (pyOptionalD p "hidden" "false"))
  let pieces := ["WIFI:T:" ++ auth ++ ";", "S:" ++ ssid ++ ";"] ++
    (if auth != "nopass" then ["P:" ++ password ++ ";"] else []) ++
    (if hidden then ["H:true;"] else []) ++ [";"]
  pure (pyJoin "" pieces)

def build_vcard (p : Params) : Except BuildError String := do
  let name ← pyRequire p "name"
  let phone := pyOptional p "phone"
  let email := pyOptional p "email"
  let org := pyOptional p "org"
  let title := pyOptional p "title"
  let url := pyOptional p "url"
  let address := pyOptional p "address"
  let note := pyOptional p "note"
  let lines := ["BEGIN:VCARD", "VERSION:3.0", "FN:" ++ name] ++
    (if phone != "" then ["TEL;TYPE=CELL:" ++ phone] else []) ++
    (if email != "" then ["EMAIL:" ++ email] else []) ++
    (if org != "" then ["ORG:" ++ org] else []) ++
    (if title != "" then ["TITLE:" ++ title] else []) ++
    (if url != "" then ["URL:" ++ url] else []) ++
    (if address != "" then ["ADR:;;" ++ address ++ ";;;;"] else []) ++
    (if note != "" then ["NOTE:" ++ note] else []) ++
    ["END:VCARD"]
  pure (pyJoin "\n" lines)

def build_mecard (p : Params) : Except BuildError String := do
  let name ← pyRequire p "name"
  let phone := pyOptional p "phone"
  let email := pyOptional p "email"
  let url := pyOptional p "url"
  let parts := ["MECARD:N:" ++ name ++ ";"] ++
    (if phone != "" then ["TEL:" ++ phone ++ ";"] else []) ++
    (if email != "" then ["EMAIL:" ++ email ++ ";"] else []) ++
    (if url != "" then ["URL:" ++ url ++ ";"] else []) ++
    [";"]
  pure (pyJoin "" parts)

def build_geo (p : Params) : Except BuildError String := do
  let lat ← pyRequire p "lat"
  let lon ← pyRequire p "lon"
  let query := pyOptional p "query"
  pure ("geo:" ++ lat ++ "," ++ lon ++ (if query != "" then "?q=" ++ pyQuote query else ""))

def build_google_maps (p : Params) : Except BuildError String := do
  let lat ← pyRequire p "lat"
  let lon ← pyRequire p "lon"
  pure ("https://www.google.com/maps?q=" ++ pyQuote lat ++ "," ++ pyQuote lon)

def build_ics_event (p : Params) : Except BuildError String := do
  let summary ← pyRequire p "summary"
  let dtstart ← pyRequire p "dtstart"
  let dtend := pyOptional p "dtend"
  let location := pyOptional p "location"
  let description := pyOptional p "description"
  let lines := ["BEGIN:VCALENDAR", "VERSION:2.0", "BEGIN:VEVENT",
      "SUMMARY:" ++ summary, "DTSTART:" ++ dtstart] ++
    (if dtend != "" then ["DTEND:" ++ dtend] else []) ++
    (if location != "" then ["LOCATION:" ++ location] else []) ++
    (if description != "" then ["DESCRIPTION:" ++ description] else []) ++
    ["END:VEVENT", "END:VCALENDAR"]
  pure (pyJoin "\n" lines)

def build_google_calendar_link (p : Params) : Except BuildError String := do
  let text ← pyRequire p "text"
  let start ← pyRequire p "start"
  let endv ← pyRequire p "end"
  let details := pyOptional p "details"
  let location := pyOptional p "location"
  let query := [("action", "TEMPLATE"), ("text", text), ("dates", start ++ "/" ++ endv)] ++
    (if details != "" then [("details", details)] else []) ++
    (if location != "" then [("location", location)] else [])
  pure ("https://calendar.google.com/calendar/render?" ++ pyUrlencode query)

def build_crypto_uri (p : Params) (scheme : String) : Except BuildError String := do
  let address ← pyRequire p "address"
  let amount := pyOptional p "amount"
  let label := pyOptional p "label"
  let message := pyOptional p "message"
  let query : List (String × String) :=
    (if amount != "" then [("amount", amount)] else []) ++
    (if label != "" then [("label", label)] else []) ++
    (if message != "" then [("message", message)] else [])
  pure (scheme ++ ":" ++ address ++ (if !query.isEmpty then "?" ++ pyUrlencode query else ""))

def build_paypal_me (p : Params) : Except BuildError String := do
  let username ← pyRequire p "username"
  let amount := pyOptional p "amount"
  pure ("https://paypal.me/" ++ pyQuote username ++
    (if amount != "" then "/" ++ pyQuote amount else ""))

def build_upi (p : Params) : Except BuildError String := do
  let pa ← pyRequire p "pa"
  let pn ← pyRequire p "pn"
  let am := pyOptional p "am"
  let tn := pyOptional p "tn"
  let cu := pyOptionalD p "cu" "INR"
  let query := [("pa", pa), ("pn", pn), ("cu", cu)] ++
    (if am != "" then [("am", am)] else []) ++
    (if tn != "" then [("tn", tn)] else [])
  pure ("upi://pay?" ++ pyUrlencode query)

def build_sepa (p : Params) : Except BuildError String := do
  let name ← pyRequire p "name"
  let iban ← pyRequire p "iban"
  let bic ← pyRequire p "bic"
  let amount ← pyRequire p "amount"
  let purpose := pyOptional p "purpose"
  let remittance := pyOptional p "remittance"
  let information := pyOptional p "information"
  let lines := ["BCD", "001", "1", "SCT", bic, name, iban, "EUR" ++ amount,
    purpose, remittance, information]
  pure (pyJoin "\n" lines)

/-- The shared social-profile builder (`_build_social_url`; every registered
caller uses the default `key="handle"`). -/
def build_social_url (p : Params) (base : String) (key : String) : Except BuildError String := do
  let handle ← pyRequire p key
  pure (rstripChars base ['/'] ++ "/" ++ pyQuote (lstripChars handle ['@']))

def build_discord_invite (p : Params) : Except BuildError String := do
  let invite ← pyRequire p "invite"
  pure ("https://discord.gg/" ++ pyQuote invite)

def build_slack_channel (p : Params) : Except BuildError String := do
  let channel ← pyRequire p "channel"
  let team := pyOptional p "team"
  let query := [("channel", channel)] ++ (if team != "" then [("team", team)] else [])
  pure ("https://slack.com/app_redirect?" ++ pyUrlencode query)

def build_zoom (p : Params) : Except BuildError String := do
  let meeting_id ← pyRequire p "meeting_id"
  let pwd := pyOptional p "pwd"
  pure ("https://zoom.us/j/" ++ pyQuote meeting_id ++
    (if pwd != "" then "?pwd=" ++ pyQuote pwd else ""))

def build_spotify_track (p : Params) : Except BuildError String := do
  let track_id ← pyRequire p "track_id"
  pure ("https://open.spotify.com/track/" ++ pyQuote track_id)

def build_appstore (p : Params) : Except BuildError String := do
  let app_id ← pyRequire p "app_id"
  let app_id := removePrefixStr (pyLower app_id) "id"
  pure ("https://apps.apple.com/app/id" ++ pyQuote app_id)

def build_googleplay (p : Params) : Except BuildError String := do
  let package ← pyRequire p "package"
  pure ("https://play.google.com/store/apps/details?id=" ++ pyQuote package)

def build_deeplink (p : Params) : Except BuildError String := do
  let scheme ← pyRequire p "scheme"
  let path ← pyRequire p "path"
  let query := pyOptional p "query"
  pure (scheme ++ "://" ++ lstripChars path ['/'] ++
    (if query != "" then "?" ++ lstripChars query ['?'] else ""))

def build_json (p : Params) : Except BuildError String := do
  let raw ← pyRequire p "json"
  match jsonLoads raw with
  | some v => pure (String.mk (dumpJson v))
  | none => Except.error BuildError.jsonDecodeError

def build_csv_row (p : Params) : Except BuildError String := do
  let values ← pyRequire p "values"
  pure values

def build_markdown_link (p : Params) : Except BuildError String := do
  let text ← pyRequire p "text"
  let url ← pyRequire p "url"
  pure ("[" ++ text ++ "](" ++ url ++ ")")

def build_otpauth_totp (p : Params) : Except BuildError String := do
  let label ← pyRequire p "label"
  let secret ← pyRequire p "secret"
  let issuer := pyOptional p "issuer"
  let digits := pyOptionalD p "digits" "6"
  let period := pyOptionalD p "period" "30"
  let query := [("secret", secret), ("digits", digits), ("period", period)] ++
    (if issuer != "" then [("issuer", issuer)] else [])
  pure ("otpauth://totp/" ++ pyQuote label ++ "?" ++ pyUrlencode query)

def build_otpauth_hotp (p : Params) : Except BuildError String := do
  let label ← pyRequire p "label"
  let secret ← pyRequire p "secret"
  let counter ← pyRequire p "counter"
  let issuer := pyOptional p "issuer"
  let digits := pyOptionalD p "digits" "6"
  let query := [("secret", secret), ("counter", counter), ("digits", digits)] ++
    (if issuer != "" then [("issuer", issuer)] else [])
  pure ("otpauth://hotp/" ++ pyQuote label ++ "?" ++ pyUrlencode query)

def build_custom_prefix (p : Params) : Except BuildError String := do
  let pre ← pyRequire p "prefix"
  let value ← pyRequire p "value"
  pure (pre ++ value)

/-! ## The template registry -/

structure Template where
  key : String
  description : String
  required_params : List String
  optional_params : List String
  builder : Params → Except BuildError String

/-- The fixed registry `TEMPLATES`, in the insertion order of the Python
`dict` literal. -/
def TEMPLATES : List Template := [
  Template.mk "text" "Plain text" ["text"] []
    (fun p => pyRequire p "text"),
  Template.mk "text-uppercase" "Plain text uppercased" ["text"] []
    (fun p => (pyRequire p "text").map pyUpper),
  Template.mk "text-lowercase" "Plain text lowercased" ["text"] []
    (fun p => (pyRequire p "text").map pyLower),
  Template.mk "url" "URL (as provided)" ["url"] []
    (fun p => pyRequire p "url"),
  Template.mk "url-https" "Force HTTPS scheme" ["url"] []
    (fun p => (pyRequire p "url").bind (fun u => ensure_scheme u "https")),
  Template.mk "url-http" "Force HTTP scheme" ["url"] []
    (fun p => (pyRequire p "url").bind (fun u => ensure_scheme u "http")),
  Template.mk "url-utm" "URL with UTM parameters"
    ["base_url", "utm_source", "utm_medium"] ["utm_campaign", "utm_term", "utm_content"]
    (fun p => do
      let base ← pyRequire p "base_url"
      let u ← ensure_scheme base "https"
      let src ← pyRequire p "utm_source"
      let med ← pyRequire p "utm_medium"
      pure (u ++ "?" ++ pyUrlencode ([("utm_source", src), ("utm_medium", med)] ++
        (if pyOptional p "utm_campaign" != "" then
          [("utm_campaign", pyOptional p "utm_campaign")] else []) ++
        (if pyOptional p "utm_term" != "" then
          [("utm_term", pyOptional p "utm_term")] else []) ++
        (if pyOptional p "utm_content" != "" then
          [("utm_content", pyOptional p "utm_content")] else [])))),
  Template.mk "email-mailto" "Email using mailto:" ["to"] ["subject", "body"]
    build_mailto,
  Template.mk "email-simple" "Email using MATMSG format" ["to"] ["subject", "body"]
    build_matmsg,
  Template.mk "phone" "Telephone number (tel:)" ["number"] []
    (fun p => (pyRequire p "number").map (fun n => "tel:" ++ n)),
  Template.mk "sms" "SMS (SMSTO)" ["number"] ["message"]
    build_sms,
  Template.mk "whatsapp" "WhatsApp wa.me link" ["phone"] ["text"]
    (fun p => (pyRequire p "phone").map (fun ph =>
      "https://wa.me/" ++ pyQuote (lstripChars ph ['+']) ++
        (if pyOptional p "text" != "" then
          "?" ++ pyUrlencode [("text", pyOptional p "text")] else ""))),
  Template.mk "telegram" "Telegram username link" ["username"] []
    (fun p => (pyRequire p "username").map (fun u =>
      "https://t.me/" ++ pyQuote (lstripChars u ['@']))),
  Template.mk "geo" "Geo coordinates (geo: URI)" ["lat", "lon"] ["query"]
    build_geo,
  Template.mk "google-maps" "Google Maps query link" ["lat", "lon"] []
    build_google_maps,
  Template.mk "wifi-wpa" "WiFi config (WPA)" ["ssid", "password"] ["hidden"]
    (fun p => build_wifi p "WPA"),
  Template.mk "wifi-wpa2" "WiFi config (WPA2)" ["ssid", "password"] ["hidden"]
    (fun p => build_wifi p "WPA2"),
  Template.mk "wifi-wep" "WiFi config (WEP)" ["ssid", "password"] ["hidden"]
    (fun p => build_wifi p "WEP"),
  Template.mk "wifi-nopass" "WiFi config (open network)" ["ssid"] ["hidden"]
    (fun p => build_wifi p "nopass"),
  Template.mk "vcard" "vCard (VCF) contact" ["name"]
    ["phone", "email", "org", "title", "url", "address", "note"]
    build_vcard,
  Template.mk "mecard" "MeCard contact" ["name"] ["phone", "email", "url"]
    build_mecard,
  Template.mk "event-ics" "iCalendar VEVENT" ["summary", "dtstart"]
    ["dtend", "location", "description"]
    build_ics_event,
  Template.mk "event-google-calendar" "Google Calendar template link"
    ["text", "start", "end"] ["details", "location"]
    build_google_calendar_link,
  Template.mk "bitcoin" "Bitcoin URI" ["address"] ["amount", "label", "message"]
    (fun p => build_crypto_uri p "bitcoin"),
  Template.mk "ethereum" "Ethereum URI" ["address"] ["amount", "label", "message"]
    (fun p => build_crypto_uri p "ethereum"),
  Template.mk "litecoin" "Litecoin URI" ["address"] ["amount", "label", "message"]
    (fun p => build_crypto_uri p "litecoin"),
  Template.mk "paypal-me" "PayPal.me link" ["username"] ["amount"]
    build_paypal_me,
  Template.mk "upi" "UPI payment URI" ["pa", "pn"] ["am", "tn", "cu"]
    build_upi,
  Template.mk "sepa-credit-transfer" "EPC SEPA Credit Transfer payload"
    ["name", "iban", "bic", "amount"] ["purpose", "remittance", "information"]
    build_sepa,
  Template.mk "linkedin" "LinkedIn profile" ["handle"] []
    (fun p => build_social_url p "https://www.linkedin.com/in" "handle"),
  Template.mk "github" "GitHub profile" ["handle"] []
    (fun p => build_social_url p "https://github.com" "handle"),
  Template.mk "twitter" "X/Twitter profile" ["handle"] []
    (fun p => build_social_url p "https://twitter.com" "handle"),
  Template.mk "facebook" "Facebook profile" ["handle"] []
    (fun p => build_social_url p "https://facebook.com" "handle"),
  Template.mk "instagram" "Instagram profile" ["handle"] []
    (fun p => build_social_url p "https://instagram.com" "handle"),
  Template.mk "youtube" "YouTube handle" ["handle"] []
    (fun p => (pyRequire p "handle").map (fun h =>
      "https://youtube.com/@" ++ pyQuote (lstripChars h ['@']))),
  Template.mk "discord" "Discord invite" ["invite"] []
    build_discord_invite,
  Template.mk "slack" "Slack channel redirect" ["channel"] ["team"]
    build_slack_channel,
  Template.mk "zoom-meeting" "Zoom meeting link" ["meeting_id"] ["pwd"]
    build_zoom,
  Template.mk "spotify-track" "Spotify track link" ["track_id"] []
    build_spotify_track,
  Template.mk "appstore" "Apple App Store link" ["app_id"] []
    build_appstore,
  Template.mk "googleplay" "Google Play Store link" ["package"] []
    build_googleplay,
  Template.mk "app-deeplink" "Custom app deep link" ["scheme", "path"] ["query"]
    build_deeplink,
  Template.mk "json" "Minified JSON (validated)" ["json"] []
    build_json,
  Template.mk "csv-row" "CSV row as provided" ["values"] []
    build_csv_row,
  Template.mk "markdown-link" "Markdown link" ["text", "url"] []
    build_markdown_link,
  Template.mk "otp-totp" "TOTP otpauth:// URI" ["label", "secret"]
    ["issuer", "digits", "period"]
    build_otpauth_totp,
  Template.mk "otp-hotp" "HOTP otpauth:// URI" ["label", "secret", "counter"]
    ["issuer", "digits"]
    build_otpauth_hotp,
  Template.mk "eicar-test" "EICAR standard test string (safe antivirus demo)" [] []
    (fun _p => pure EICAR_STRING),
  Template.mk "safe-demo-sentry" "Safe demo URL (sentry.io)" [] []
    (fun _p => pure "https://sentry.io"),
  Template.mk "custom-prefix" "Prefix + value" ["prefix", "value"] []
    build_custom_prefix]

/-- Lookup in the registry dictionary (keys are pairwise distinct). -/
def findTemplate (key : String) : Option Template :=
  TEMPLATES.find? (fun t => t.key == key)

/-- The test `k not in params or params[k] == ""` of `build_payload`. -/
def paramMissingB (p : Params) (k : String) : Bool :=
  match getParam p k with
  | none => true
  | some v => v == ""

/-- Embedding of `build_payload`. -/
def build_payload (template_key : String) (p : Params) : Except BuildError String :=
  match findTemplate template_key with
  | none => Except.error (BuildError.unknownTemplate template_key)
  | some t =>
    let missing := t.required_params.filter (fun k => paramMissingB p k)
    if missing.isEmpty then t.builder p
    else Except.error (BuildError.missingParams template_key missing)

/-- Code-point lexicographic comparison, as Python compares `str` values. -/
def charListLt : List Char → List Char → Bool
  | [], [] => false
  | [], _ :: _ => true
  | _ :: _, [] => false
  | a :: as, b :: bs =>
    if a.toNat < b.toNat then true
    else if b.toNat < a.toNat then false
    else charListLt as bs

def strLt (a b : String) : Bool :=
  charListLt a.data b.data

/-- Stable insertion into an ascending list of strings (the model of Python
`sorted` on the registry's distinct keys). -/
def insertSorted (x : String) : List String → List String
  | [] => [x]
  | y :: ys => if strLt y x then y :: insertSorted x ys else x :: y :: ys

def sortStrings (l : List String) : List String :=
  l.foldr insertSorted []

/-- Embedding of `list_templates`: the registry entries in ascending key
order. -/
def list_templates : List Template :=
  (sortStrings (TEMPLATES.map (fun t => t.key))).filterMap findTemplate

/-- Boolean checker for strictly ascending adjacent keys. -/
def chainLt : List String → Bool
  | [] => true
  | [_] => true
  | a :: b :: r => strLt a b && chainLt (b :: r)

theorem chainLt_iff (l : List String) :
    chainLt l = true ↔ List.Chain' (fun a b => strLt a b = true) l := by
  match l with
  | [] => simp [chainLt]
  | [a] => simp [chainLt]
  | a :: b :: r =>
    rw [List.chain'_cons, ← chainLt_iff (b :: r)]
    simp [chainLt]

/-! ## Helper lemmas -/

theorem str_ne_empty_iff (s : String) : s ≠ "" ↔ s.data ≠ [] := by
  constructor
  · intro h hd
    exact h (String.ext hd)
  · intro h hd
    subst hd
    exact h rfl

theorem append_ne_empty_left (a b : String) (h : a ≠ "") : a ++ b ≠ "" := by
  rw [str_ne_empty_iff] at h ⊢
  rw [String.data_append]
  intro hc
  exact h (List.append_eq_nil.mp hc).1

theorem pyJoin_cons_ne_empty (sep x : String) (rest : List String) (h : x ≠ "") :
    pyJoin sep (x :: rest) ≠ "" := by
  cases rest with
  | nil => exact h
  | cons y ys =>
    show x ++ sep ++ pyJoin sep (y :: ys) ≠ ""
    exact append_ne_empty_left _ _ (append_ne_empty_left _ _ h)

theorem pyUpper_ne_empty (s : String) (h : s ≠ "") : pyUpper s ≠ "" := by
  rw [str_ne_empty_iff] at h ⊢
  show (s.data.map Char.toUpper) ≠ []
  simp [h]

theorem pyLower_ne_empty (s : String) (h : s ≠ "") : pyLower s ≠ "" := by
  rw [str_ne_empty_iff] at h ⊢
  show (s.data.map Char.toLower) ≠ []
  simp [h]

theorem pyRequire_ok {p : Params} {k v : String} (h : getParam p k = some v) (hv : v ≠ "") :
    pyRequire p k = Except.ok v := by
  simp [pyRequire, h, hv]

theorem paramMissingB_false {p : Params} {k v : String} (h : getParam p k = some v)
    (hv : v ≠ "") : paramMissingB p k = false := by
  simp [paramMissingB, h, hv]

theorem build_payload_eq_builder {key : String} {t : Template} {p : Params}
    (hfind : findTemplate key = some t)
    (hmiss : t.required_params.filter (fun k => paramMissingB p k) = []) :
    build_payload key p = t.builder p := by
  simp [build_payload, hfind, hmiss]

theorem natCharsAux_ne_nil (fuel n : Nat) (acc : List Char) (h : acc ≠ []) :
    natCharsAux fuel n acc ≠ [] := by
  induction fuel generalizing n acc with
  | zero => exact h
  | succ f ih =>
    unfold natCharsAux
    split
    · simp
    · exact ih _ _ (by simp)

theorem natChars_ne_nil (n : Nat) : natChars n ≠ [] := by
  show (if n < 10 then Char.ofNat (48 + n % 10) :: ([] : List Char)
    else natCharsAux n (n / 10) (Char.ofNat (48 + n % 10) :: [])) ≠ []
  split
  · simp
  · exact natCharsAux_ne_nil _ _ _ (by simp)

theorem intChars_ne_nil (n : Int) : intChars n ≠ [] := by
  unfold intChars
  split
  · simp
  · exact natChars_ne_nil _

theorem dumpJson_ne_nil (v : Json) : dumpJson v ≠ [] := by
  cases v with
  | null => simp [dumpJson]
  | bool b => cases b <;> simp [dumpJson]
  | num n => exact intChars_ne_nil n
  | str s => simp [dumpJson]
  | arr xs => simp [dumpJson]
  | obj ms => simp [dumpJson]

theorem urlunsplit_ne_empty (scheme netloc url query fragment : String) (h : scheme ≠ "") :
    urlunsplit scheme netloc url query fragment ≠ "" := by
  have hs : (scheme != "") = true := bne_iff_ne.mpr h
  have base : ∀ u : String, scheme ++ ":" ++ u ≠ "" := fun u =>
    append_ne_empty_left _ _ (append_ne_empty_left _ _ h)
  unfold urlunsplit
  simp only [hs, if_true]
  split
  · apply append_ne_empty_left
    apply append_ne_empty_left
    split
    · apply append_ne_empty_left
      apply append_ne_empty_left
      exact base _
    · exact base _
  · split
    · apply append_ne_empty_left
      apply append_ne_empty_left
      exact base _
    · exact base _

theorem ensure_scheme_ok_ne_empty {url scheme s : String} (hs : scheme ≠ "")
    (h : ensure_scheme url scheme = Except.ok s) : s ≠ "" := by
  unfold ensure_scheme at h
  cases hp : urlparseE url with
  | error e => rw [hp] at h; cases h
  | ok parsed =>
    rw [hp] at h
    injection h with h
    subst h
    set p1 := if parsed.scheme == "" then { parsed with scheme := scheme } else parsed with hp1
    have h1 : p1.scheme ≠ "" := by
      rw [hp1]
      split
      · exact hs
      · next hne => exact fun hc => hne (by rw [hc]; rfl)
    split
    · exact urlunsplit_ne_empty _ _ _ _ _ hs
    · exact urlunsplit_ne_empty _ _ _ _ _ h1

/-! ## Whitespace-only strings match no malicious pattern -/

theorem ws_beq_false {c : Char} (c' : Char) (h : isPyWS c = true) (h' : isPyWS c' = false) :
    (c' == c) = false := by
  cases hbe : c' == c with
  | false => rfl
  | true =>
    rw [beq_iff_eq] at hbe
    subst hbe
    rw [h] at h'
    cases h'

theorem dropPrefixChars_ws_head {c : Char} (p : Char) (ps : List Char) (cs : List Char)
    (h : isPyWS c = true) (hp : isPyWS p = false) :
    dropPrefixChars (p :: ps) (c :: cs) = none := by
  simp [dropPrefixChars, ws_beq_false p h hp]

theorem matchScriptAt_ws_head {c : Char} (cs : List Char) (h : isPyWS c = true) :
    matchScriptAt (c :: cs) = false := by
  unfold matchScriptAt
  split
  · rename_i rest heq
    injection heq with hc htl
    rw [hc] at h
    exact absurd h (by decide)
  · rfl

theorem matchOnAttrAt_ws_head {c : Char} (cs : List Char) (h : isPyWS c = true) :
    matchOnAttrAt (c :: cs) = false := by
  simp [matchOnAttrAt, dropPrefixChars_ws_head 'o' _ _ h (by decide)]

theorem matchRmRfAt_ws_head {c : Char} (cs : List Char) (h : isPyWS c = true) :
    matchRmRfAt (c :: cs) = false := by
  simp [matchRmRfAt, dropPrefixChars_ws_head 'r' _ _ h (by decide)]

theorem matchCurlAt_ws_head {c : Char} (cs : List Char) (h : isPyWS c = true) :
    matchCurlAt (c :: cs) = false := by
  simp [matchCurlAt, dropPrefixChars_ws_head 'c' _ _ h (by decide)]

theorem matchMalAt_ws_head (pnw : Bool) {c : Char} (cs : List Char) (h : isPyWS c = true) :
    matchMalAt pnw (c :: cs) = false := by
  unfold matchMalAt
  rw [show "javascript:".data = 'j' :: "avascript:".data from rfl,
    show "data:text/html".data = 'd' :: "ata:text/html".data from rfl,
    show "cmd.exe".data = 'c' :: "md.exe".data from rfl,
    show "powershell.exe".data = 'p' :: "owershell.exe".data from rfl,
    show "/etc/passwd".data = '/' :: "etc/passwd".data from rfl]
  rw [dropPrefixChars_ws_head _ _ _ h (by decide),
    dropPrefixChars_ws_head _ _ _ h (by decide),
    dropPrefixChars_ws_head _ _ _ h (by decide),
    dropPrefixChars_ws_head _ _ _ h (by decide),
    dropPrefixChars_ws_head _ _ _ h (by decide),
    matchScriptAt_ws_head _ h, matchOnAttrAt_ws_head _ h,
    matchRmRfAt_ws_head _ h, matchCurlAt_ws_head _ h]
  simp

theorem scanMal_ws (pnw : Bool) (l : List Char) (h : l.all isPyWS = true) :
    scanMal pnw l = false := by
  induction l generalizing pnw with
  | nil => cases pnw <;> rfl
  | cons c cs ih =>
    rw [List.all_cons, Bool.and_eq_true] at h
    have h1 := matchMalAt_ws_head pnw cs h.1
    have h2 := ih (!isWordChar c) h.2
    show (matchMalAt pnw (c :: cs) || scanMal (!isWordChar c) cs) = false
    rw [h1, h2]
    rfl

theorem toLower_ws {c : Char} (h : isPyWS c = true) : Char.toLower c = c := by
  have hle : c.toNat ≤ 32 := by
    simp [isPyWS] at h
    omega
  have hno : ¬ (c.toNat ≥ 65 ∧ c.toNat ≤ 90) := by omega
  simp [Char.toLower, hno]

theorem hasMal_ws {d : String} (hws : d.data.all isPyWS = true) :
    hasMaliciousPattern d = false := by
  have hlow : (pyLower d).data.all isPyWS = true := by
    show (d.data.map Char.toLower).all isPyWS = true
    rw [List.all_map]
    rw [List.all_eq_true] at hws ⊢
    intro c hc
    show isPyWS (Char.toLower c) = true
    rw [toLower_ws (hws c hc)]
    exact hws c hc
  rw [hasMaliciousPattern, scanMal_ws _ _ hlow]

theorem hasMal_not_ws {d : String} (h : hasMaliciousPattern d = true) :
    d.data.all isPyWS = false := by
  cases hws : d.data.all isPyWS with
  | false => rfl
  | true =>
    rw [hasMal_ws hws] at h
    cases h

/-! ## Claim C1 -/

/-- C1 counterexample: the empty string contains none of the malicious
patterns and has length under 4096, yet `validate_payload` rejects it (with
the empty-payload error), so the acceptance half of the claim as stated is
false. -/
theorem c1_counterexample :
    hasMaliciousPattern "" = false ∧ String.length "" < 4096 ∧
      validate_payload "" = Except.error ValidationError.emptyPayload := by
  decide

/-- C1 (amended): `validate_payload` rejects every string matched by one of
the nine compiled malicious patterns, and accepts every string that matches
none of them, has length under 4096, and is not whitespace-only (the
whitespace-only exclusion is what the counterexample forces). -/
theorem c1_validate_patterns (d : String) :
    (hasMaliciousPattern d = true → validate_payload d ≠ Except.ok ()) ∧
    (hasMaliciousPattern d = false → d.length < 4096 → d.data.all isPyWS = false →
      validate_payload d = Except.ok ()) := by
  constructor
  · intro hm hok
    by_cases hws : d.data.all isPyWS = true
    · simp [validate_payload, hws] at hok
    · rw [Bool.not_eq_true] at hws
      by_cases hlen : d.length > MAX_PAYLOAD_LENGTH
      · simp [validate_payload, hws, hlen] at hok
      · simp [validate_payload, hws, hlen, is_malicious_request, hm] at hok
  · intro hm hlen hws
    have h1 : ¬ d.length > MAX_PAYLOAD_LENGTH := by
      simp only [MAX_PAYLOAD_LENGTH]
      omega
    simp [validate_payload, hws, h1, is_malicious_request, hm]

/-- Witness for C1: a harmless short string is accepted, and a
`javascript:`-bearing string is rejected. -/
theorem c1_witness :
    validate_payload "hello" = Except.ok () ∧
      validate_payload "javascript:alert(1)" ≠ Except.ok () :=
  ⟨(c1_validate_patterns "hello").2 (by decide) (by decide) (by decide),
   (c1_validate_patterns "javascript:alert(1)").1 (by decide)⟩

/-! ## Claim C2 -/

set_option maxRecDepth 8000 in
/-- C2 counterexample: on the claim's exact input the registry does not
return the claimed string. -/
theorem c2_counterexample :
    build_payload "url-utm"
        [("base_url", "example.com"), ("utm_source", "news"), ("utm_medium", "email")] ≠
      Except.ok "https://example.com?utm_source=news&utm_medium=email" := by
  decide

set_option maxRecDepth 8000 in
/-- C2 (amended): on the claim's input, `urlunsplit` of CPython inserts `//`
for a `uses_netloc` scheme with an empty authority, so the result is
`https:///example.com?utm_source=news&utm_medium=email` (triple slash). -/
theorem c2_url_utm_example :
    build_payload "url-utm"
        [("base_url", "example.com"), ("utm_source", "news"), ("utm_medium", "email")] =
      Except.ok "https:///example.com?utm_source=news&utm_medium=email" := by
  decide

/-! ## Claim C4 -/

/-- C4: whenever some required parameter of a registered template is absent or
empty, `build_payload` fails with a missing-parameters error carrying exactly
the list of all such parameters (in declaration order), not just the first. -/
theorem c4_missing_params (key : String) (t : Template) (p : Params)
    (hfind : findTemplate key = some t)
    (hsome : ∃ k, k ∈ t.required_params ∧ paramMissingB p k = true) :
    build_payload key p =
      Except.error (BuildError.missingParams key
        (t.required_params.filter (fun k => paramMissingB p k))) ∧
    ∀ k, k ∈ t.required_params.filter (fun k => paramMissingB p k) ↔
      (k ∈ t.required_params ∧ paramMissingB p k = true) := by
  obtain ⟨k0, hk0, hm0⟩ := hsome
  have hne : t.required_params.filter (fun k => paramMissingB p k) ≠ [] := by
    intro hc
    have : k0 ∈ t.required_params.filter (fun k => paramMissingB p k) :=
      List.mem_filter.mpr ⟨hk0, hm0⟩
    rw [hc] at this
    cases this
  constructor
  · simp only [build_payload, hfind]
    rw [if_neg]
    simp [List.isEmpty_iff, hne]
  · intro k
    exact List.mem_filter

/-- Witness for C4: `wifi-wpa2` without `password`. -/
theorem c4_witness :
    build_payload "wifi-wpa2" [("ssid", "Home")] =
      Except.error (BuildError.missingParams "wifi-wpa2" ["password"]) := by
  have h := (c4_missing_params "wifi-wpa2" _ [("ssid", "Home")] rfl
    ⟨"password", by decide, by decide⟩).1
  exact h.trans (by decide)

/-! ## Claim C5 -/

/-- C5 counterexample: on a whitespace-only string the boolean probe returns
`false` while the validator rejects, so the claimed equivalence over all
strings is false. -/
theorem c5_counterexample :
    is_malicious_request " " = false ∧ validate_payload " " ≠ Except.ok () := by
  decide

/-- C5 (amended): for every string that is not whitespace-only, the boolean
probe `is_malicious_request` returns `true` exactly when `validate_payload`
rejects; the probe fails to expose only the emptiness check: on a
whitespace-only payload of length at most 4096 it returns `false` while the
validator rejects with the empty-payload error.  (The length bound is
necessary: a whitespace-only payload longer than 4096 characters makes the
probe return `true` through its length check, while the validator still
reports the empty-payload error.) -/
theorem c5_probe_equiv :
    (∀ d : String, d.data.all isPyWS = false →
      (is_malicious_request d = true ↔ validate_payload d ≠ Except.ok ())) ∧
    (∀ d : String, d.data.all isPyWS = true → d.length ≤ MAX_PAYLOAD_LENGTH →
      is_malicious_request d = false ∧
        validate_payload d = Except.error ValidationError.emptyPayload) := by
  constructor
  · intro d hws
    constructor
    · intro him hok
      by_cases hlen : d.length > MAX_PAYLOAD_LENGTH
      · simp [validate_payload, hws, hlen] at hok
      · simp [validate_payload, hws, hlen, him] at hok
    · intro hne
      cases him : is_malicious_request d with
      | true => rfl
      | false =>
        exfalso
        apply hne
        have hlen : ¬ d.length > MAX_PAYLOAD_LENGTH := by
          simp [is_malicious_request] at him
          simp [him.1]
        simp [validate_payload, hws, hlen, him]
  · intro d hws hlen
    have hm := hasMal_ws hws
    have hl : ¬ d.length > MAX_PAYLOAD_LENGTH := by omega
    exact ⟨by simp [is_malicious_request, hm, hl],
      by simp [validate_payload, hws]⟩

/-- Witness for C5: a malicious payload is rejected and flagged by the probe,
and a single space is rejected as empty while the probe stays quiet. -/
theorem c5_witness :
    validate_payload "javascript:x" ≠ Except.ok () ∧
      is_malicious_request " " = false ∧
      validate_payload " " = Except.error ValidationError.emptyPayload :=
  ⟨(c5_probe_equiv.1 "javascript:x" (by decide)).mp (by decide),
   c5_probe_equiv.2 " " (by decide) (by decide)⟩

/-! ## Claim C10 -/

/-- C10: the validator's checks run in a fixed order, so an oversized payload
that also matches a malicious pattern is rejected as too large (never as
malicious), and a whitespace-only payload is rejected as empty.  (The
string-type check of the Python source precedes these but cannot fire in the
typed embedding.) -/
theorem c10_check_order :
    (∀ d : String, d.length > MAX_PAYLOAD_LENGTH → hasMaliciousPattern d = true →
      validate_payload d = Except.error ValidationError.payloadTooLarge) ∧
    (∀ d : String, d.data.all isPyWS = true →
      validate_payload d = Except.error ValidationError.emptyPayload) := by
  constructor
  · intro d hlen hm
    have hws := hasMal_not_ws hm
    simp [validate_payload, hws, hlen]
  · intro d h
    simp [validate_payload, h]

set_option maxRecDepth 8000 in
/-- Witness for C10: a 4097-character payload starting with `javascript:` is
rejected as too large, and a single space as empty. -/
theorem c10_witness :
    validate_payload ("javascript:" ++ String.mk (List.replicate 4086 'a')) =
        Except.error ValidationError.payloadTooLarge ∧
      validate_payload " " = Except.error ValidationError.emptyPayload := by
  constructor
  · apply c10_check_order.1
    · rw [String.length_append]
      have h1 : "javascript:".length = 11 := rfl
      have h2 : (String.mk (List.replicate 4086 'a')).length = 4086 := by
        show (List.replicate 4086 'a').length = 4086
        exact List.length_replicate 4086 'a'
      rw [h1, h2]
      decide
    · decide
  · exact c10_check_order.2 " " (by decide)

/-! ## Claim C6 -/

/-- C6: the WiFi builder produces `WIFI:T:<auth>;S:<ssid>;`, then `P:<password>;`
except when the auth mode is `nopass`, then `H:true;` exactly when the
optional `hidden` parameter parses case-insensitively to one of `1`/`true`/`yes`,
terminated by `;`; and the claim's concrete `wifi-wpa2` instance holds. -/
theorem c6_wifi_format :
    (∀ (p : Params) (ssid auth : String), getParam p "ssid" = some ssid → ssid ≠ "" →
      build_wifi p auth = Except.ok (("WIFI:T:" ++ auth ++ ";") ++ ("S:" ++ ssid ++ ";") ++
        (if auth != "nopass" then "P:" ++ pyOptional p "password" ++ ";" else "") ++
        (if ["1", "true", "yes"].contains (pyLower (pyOptionalD p "hidden" "false"))
          then "H:true;" else "") ++ ";")) ∧
    build_payload "wifi-wpa2" [("ssid", "Home"), ("password", "secret1")] =
      Except.ok "WIFI:T:WPA2;S:Home;P:secret1;;" := by
  constructor
  · intro p ssid auth hs hne
    show (pyRequire p "ssid").bind _ = _
    rw [pyRequire_ok hs hne]
    show Except.ok (pyJoin "" _) = _
    by_cases ha : (auth != "nopass") = true
    · by_cases hh : ["1", "true", "yes"].contains (pyLower (pyOptionalD p "hidden" "false")) = true
      · simp only [ha, hh, if_true, if_pos]
        show Except.ok (pyJoin "" ["WIFI:T:" ++ auth ++ ";", "S:" ++ ssid ++ ";",
          "P:" ++ pyOptional p "password" ++ ";", "H:true;", ";"]) = _
        simp [pyJoin, String.append_assoc]
      · rw [Bool.not_eq_true] at hh
        simp only [ha, hh, if_true, Bool.false_eq_true, if_false]
        show Except.ok (pyJoin "" ["WIFI:T:" ++ auth ++ ";", "S:" ++ ssid ++ ";",
          "P:" ++ pyOptional p "password" ++ ";", ";"]) = _
        simp [pyJoin, String.append_assoc]
    · rw [Bool.not_eq_true] at ha
      by_cases hh : ["1", "true", "yes"].contains (pyLower (pyOptionalD p "hidden" "false")) = true
      · simp only [ha, hh, if_true, Bool.false_eq_true, if_false]
        show Except.ok (pyJoin "" ["WIFI:T:" ++ auth ++ ";", "S:" ++ ssid ++ ";",
          "H:true;", ";"]) = _
        simp [pyJoin, String.append_assoc]
      · rw [Bool.not_eq_true] at hh
        simp only [ha, hh, Bool.false_eq_true, if_false]
        show Except.ok (pyJoin "" ["WIFI:T:" ++ auth ++ ";", "S:" ++ ssid ++ ";", ";"]) = _
        simp [pyJoin, String.append_assoc]
  · decide

/-- Witness for C6: a WEP network with no password parameter supplied. -/
theorem c6_witness : build_wifi [("ssid", "Net")] "WEP" = Except.ok "WIFI:T:WEP;S:Net;P:;;" := by
  have h := c6_wifi_format.1 [("ssid", "Net")] "Net" "WEP" rfl (by decide)
  exact h.trans (by decide)

/-! ## Claim C7 -/

/-- C7: the `json` template parses its required `json` parameter with
`json.loads` and re-serialises the value minified, failing exactly when the
parameter is not valid JSON; on the claim's concrete input the output is the
minified `{"a":1,"b":2}`. -/
theorem c7_json_roundtrip :
    (∀ (p : Params) (raw : String), getParam p "json" = some raw → raw ≠ "" →
      build_payload "json" p =
        match jsonLoads raw with
        | some v => Except.ok (String.mk (dumpJson v))
        | none => Except.error BuildError.jsonDecodeError) ∧
    build_payload "json" [("json", "\x7b\"a\":1, \"b\":2\x7d")] =
      Except.ok "\x7b\"a\":1,\"b\":2\x7d" := by
  constructor
  · intro p raw h hne
    rw [@build_payload_eq_builder "json" (Template.mk "json" "Minified JSON (validated)"
      ["json"] [] build_json) p rfl
      (by simp [List.filter, paramMissingB_false h hne])]
    show (pyRequire p "json").bind _ = _
    rw [pyRequire_ok h hne]
    rfl
  · decide

/-- Witness for C7. -/
theorem c7_witness : build_payload "json" [("json", "[1, 2]")] = Except.ok "[1,2]" := by
  have h := c7_json_roundtrip.1 [("json", "[1, 2]")] "[1, 2]" rfl (by decide)
  exact h.trans (by decide)

/-! ## Claim C8 -/

set_option maxRecDepth 20000 in
/-- C8: `list_templates` returns the registry's 50 Template records (its key
multiset is exactly that of `TEMPLATES`), sorted in strictly ascending
code-point lexicographic order of their keys. -/
theorem c8_list_templates_sorted :
    TEMPLATES.length = 50 ∧ list_templates.length = 50 ∧
      List.Chain' (fun a b : Template => strLt a.key b.key = true) list_templates ∧
      (list_templates.map (fun t => t.key)).Perm (TEMPLATES.map (fun t => t.key)) := by
  refine ⟨by decide, by decide, ?_, ?_⟩
  · exact (List.chain'_map (fun t : Template => t.key)).mp
      ((chainLt_iff (list_templates.map (fun t => t.key))).mp (by decide))
  · exact List.isPerm_iff.mp (by decide)

/-! ## Claim C9 -/

/-- C9: whenever a registered template's builder succeeds, `build_payload`
returns the builder's string unmodified; in particular it never applies
`validate_payload` to the result (the witness exhibits a returned payload that
the validator rejects). -/
theorem c9_unmodified (key : String) (t : Template) (p : Params) (s : String)
    (hfind : findTemplate key = some t)
    (hmiss : t.required_params.filter (fun k => paramMissingB p k) = [])
    (hb : t.builder p = Except.ok s) :
    build_payload key p = Except.ok s := by
  rw [build_payload_eq_builder hfind hmiss, hb]

/-- Witness for C9: the `url` template returns a `javascript:` payload as-is,
and that very payload is rejected by the Payload Validator. -/
theorem c9_witness :
    build_payload "url" [("url", "javascript:alert(1)")] = Except.ok "javascript:alert(1)" ∧
      validate_payload "javascript:alert(1)" = Except.error ValidationError.maliciousContent :=
  ⟨c9_unmodified "url" _ [("url", "javascript:alert(1)")] "javascript:alert(1)" rfl
    (by decide) (by decide), by decide⟩

/-! ## Claim C3 -/

theorem pyOptional_empty {p : Params} {k : String} (h : getParam p k = some "") :
    pyOptional p k = "" := by
  simp [pyOptional, pyOptionalD, h]

theorem bindE_ok {α β : Type} (a : α) (f : α → Except BuildError β) :
    (Except.ok a >>= f : Except BuildError β) = f a := rfl

theorem pureE {α : Type} (a : α) :
    (pure a : Except BuildError α) = Except.ok a := rfl

theorem mapE_ok {α β : Type} (a : α) (f : α → β) :
    (Except.ok a : Except BuildError α).map f = Except.ok (f a) := rfl

theorem case_finish {key : String} {t : Template} {p : Params}
    (hfind : findTemplate key = some t)
    (hmiss : t.required_params.filter (fun k => paramMissingB p k) = [])
    (hex : ∃ out, t.builder p = Except.ok out ∧ out ≠ "") :
    (∀ s, build_payload key p = Except.ok s → s ≠ "") ∧
    (key ≠ "json" → key ≠ "url-https" → key ≠ "url-http" → key ≠ "url-utm" →
      ∃ s, build_payload key p = Except.ok s ∧ s ≠ "") := by
  obtain ⟨out, hb, hne⟩ := hex
  have heq : build_payload key p = Except.ok out := by
    rw [build_payload_eq_builder hfind hmiss, hb]
  constructor
  · intro s hs
    rw [heq] at hs
    injection hs with hs
    rw [← hs]
    exact hne
  · intro _ _ _ _
    exact ⟨out, heq, hne⟩

theorem case_forward {key : String} {t : Template} {p : Params} {s : String}
    (hs : build_payload key p = Except.ok s)
    (hfind : findTemplate key = some t)
    (hmiss : t.required_params.filter (fun k => paramMissingB p k) = []) :
    t.builder p = Except.ok s := by
  rw [build_payload_eq_builder hfind hmiss] at hs
  exact hs

/-- C3 counterexample: the `json` template fails on a non-empty required
parameter that is not valid JSON, and the URL-scheme-rewriting templates fail
on a URL that `urlparse` rejects, so the claim that every such parameter
mapping succeeds is false. -/
theorem c3_counterexample :
    build_payload "json" [("json", "x")] = Except.error BuildError.jsonDecodeError ∧
      build_payload "url-https" [("url", "http://[")] =
        Except.error BuildError.invalidIPv6URL := by
  decide

/-- C3 (amended): for every registered template and every parameter mapping
giving every required parameter a non-empty value and every optional
parameter the empty string, any successful `build_payload` result is a
non-empty string; and every template other than `json` (which additionally
needs its parameter to parse as JSON) and the URL-rewriting templates
`url-https`/`url-http`/`url-utm` (which additionally need the URL to parse)
succeeds outright.  The embedding is pure, so the result is a deterministic
function of the template key and the mapping alone. -/
theorem c3_builders_nonempty :
    ∀ t ∈ TEMPLATES, ∀ p : Params,
      (∀ k ∈ t.required_params, ∃ v, getParam p k = some v ∧ v ≠ "") →
      (∀ k ∈ t.optional_params, getParam p k = some "") →
      (∀ s, build_payload t.key p = Except.ok s → s ≠ "") ∧
      (t.key ≠ "json" → t.key ≠ "url-https" → t.key ≠ "url-http" → t.key ≠ "url-utm" →
        ∃ s, build_payload t.key p = Except.ok s ∧ s ≠ "") := by
  intro t ht p hreq hopt
  simp only [TEMPLATES, List.mem_cons, List.not_mem_nil, or_false] at ht
  rcases ht with rfl | rfl | rfl | rfl | rfl | rfl | rfl | rfl | rfl | rfl | rfl | rfl | rfl |
    rfl | rfl | rfl | rfl | rfl | rfl | rfl | rfl | rfl | rfl | rfl | rfl | rfl | rfl | rfl |
    rfl | rfl | rfl | rfl | rfl | rfl | rfl | rfl | rfl | rfl | rfl | rfl | rfl | rfl | rfl |
    rfl | rfl | rfl | rfl | rfl | rfl | rfl
  -- text
  · obtain ⟨v, hv, hn⟩ := hreq "text" (by decide)
    refine case_finish rfl (by simp [paramMissingB_false hv hn]) ?_
    exact ⟨v, pyRequire_ok hv hn, hn⟩
  -- text-uppercase
  · obtain ⟨v, hv, hn⟩ := hreq "text" (by decide)
    refine case_finish rfl (by simp [paramMissingB_false hv hn]) ?_
    show ∃ out, (pyRequire p "text").map pyUpper = Except.ok out ∧ out ≠ ""
    simp only [pyRequire_ok hv hn, mapE_ok]
    exact ⟨_, rfl, pyUpper_ne_empty v hn⟩
  -- text-lowercase
  · obtain ⟨v, hv, hn⟩ := hreq "text" (by decide)
    refine case_finish rfl (by simp [paramMissingB_false hv hn]) ?_
    show ∃ out, (pyRequire p "text").map pyLower = Except.ok out ∧ out ≠ ""
    simp only [pyRequire_ok hv hn, mapE_ok]
    exact ⟨_, rfl, pyLower_ne_empty v hn⟩
  -- url
  · obtain ⟨v, hv, hn⟩ := hreq "url" (by decide)
    refine case_finish rfl (by simp [paramMissingB_false hv hn]) ?_
    exact ⟨v, pyRequire_ok hv hn, hn⟩
  -- url-https
  · obtain ⟨v, hv, hn⟩ := hreq "url" (by decide)
    refine ⟨?_, fun _ hk _ _ => absurd rfl hk⟩
    intro s hs
    have hb := case_forward hs rfl (by simp [paramMissingB_false hv hn])
    replace hb : (pyRequire p "url").bind (fun u => ensure_scheme u "https") = Except.ok s := hb
    rw [pyRequire_ok hv hn] at hb
    replace hb : ensure_scheme v "https" = Except.ok s := hb
    exact ensure_scheme_ok_ne_empty (by decide) hb
  -- url-http
  · obtain ⟨v, hv, hn⟩ := hreq "url" (by decide)
    refine ⟨?_, fun _ _ hk _ => absurd rfl hk⟩
    intro s hs
    have hb := case_forward hs rfl (by simp [paramMissingB_false hv hn])
    replace hb : (pyRequire p "url").bind (fun u => ensure_scheme u "http") = Except.ok s := hb
    rw [pyRequire_ok hv hn] at hb
    replace hb : ensure_scheme v "http" = Except.ok s := hb
    exact ensure_scheme_ok_ne_empty (by decide) hb
  -- url-utm
  · obtain ⟨v1, hv1, hn1⟩ := hreq "base_url" (by decide)
    obtain ⟨v2, hv2, hn2⟩ := hreq "utm_source" (by decide)
    obtain ⟨v3, hv3, hn3⟩ := hreq "utm_medium" (by decide)
    refine ⟨?_, fun _ _ _ hk => absurd rfl hk⟩
    intro s hs
    have hb := case_forward hs rfl (by simp [paramMissingB_false hv1 hn1,
      paramMissingB_false hv2 hn2, paramMissingB_false hv3 hn3])
    simp only [pyRequire_ok hv1 hn1, pyRequire_ok hv2 hn2, pyRequire_ok hv3 hn3,
      bindE_ok, pureE] at hb
    cases he : ensure_scheme v1 "https" with
    | error e =>
      rw [he] at hb
      replace hb : (Except.error e : Except BuildError String) = Except.ok s := hb
      exact Except.noConfusion hb
    | ok u =>
      rw [he] at hb
      simp only [bindE_ok] at hb
      injection hb with hb
      rw [← hb]
      apply append_ne_empty_left
      apply append_ne_empty_left
      exact ensure_scheme_ok_ne_empty (by decide) he
  -- email-mailto
  · obtain ⟨v, hv, hn⟩ := hreq "to" (by decide)
    refine case_finish rfl (by simp [paramMissingB_false hv hn]) ?_
    show ∃ out, build_mailto p = Except.ok out ∧ out ≠ ""
    unfold build_mailto
    simp only [pyRequire_ok hv hn, bindE_ok, pureE]
    exact ⟨_, rfl, by (repeat' apply append_ne_empty_left); decide⟩
  -- email-simple
  · obtain ⟨v, hv, hn⟩ := hreq "to" (by decide)
    refine case_finish rfl (by simp [paramMissingB_false hv hn]) ?_
    show ∃ out, build_matmsg p = Except.ok out ∧ out ≠ ""
    unfold build_matmsg
    simp only [pyRequire_ok hv hn, bindE_ok, pureE]
    exact ⟨_, rfl, by (repeat' apply append_ne_empty_left); decide⟩
  -- phone
  · obtain ⟨v, hv, hn⟩ := hreq "number" (by decide)
    refine case_finish rfl (by simp [paramMissingB_false hv hn]) ?_
    show ∃ out, (pyRequire p "number").map (fun n => "tel:" ++ n) = Except.ok out ∧ out ≠ ""
    simp only [pyRequire_ok hv hn, mapE_ok]
    exact ⟨_, rfl, by (repeat' apply append_ne_empty_left); decide⟩
  -- sms
  · obtain ⟨v, hv, hn⟩ := hreq "number" (by decide)
    refine case_finish rfl (by simp [paramMissingB_false hv hn]) ?_
    show ∃ out, build_sms p = Except.ok out ∧ out ≠ ""
    unfold build_sms
    rw [pyOptional_empty (hopt "message" (by decide))]
    simp only [pyRequire_ok hv hn, bindE_ok, pureE, bne_self_eq_false, Bool.false_eq_true,
      if_false]
    exact ⟨_, rfl, by (repeat' apply append_ne_empty_left); decide⟩
  -- whatsapp
  · obtain ⟨v, hv, hn⟩ := hreq "phone" (by decide)
    refine case_finish rfl (by simp [paramMissingB_false hv hn]) ?_
    show ∃ out, (pyRequire p "phone").map (fun ph =>
      "https://wa.me/" ++ pyQuote (lstripChars ph ['+']) ++
        (if pyOptional p "text" != "" then
          "?" ++ pyUrlencode [("text", pyOptional p "text")] else "")) =
      Except.ok out ∧ out ≠ ""
    simp only [pyRequire_ok hv hn, mapE_ok]
    exact ⟨_, rfl, by (repeat' apply append_ne_empty_left); decide⟩
  -- telegram
  · obtain ⟨v, hv, hn⟩ := hreq "username" (by decide)
    refine case_finish rfl (by simp [paramMissingB_false hv hn]) ?_
    show ∃ out, (pyRequire p "username").map (fun u =>
      "https://t.me/" ++ pyQuote (lstripChars u ['@'])) = Except.ok out ∧ out ≠ ""
    simp only [pyRequire_ok hv hn, mapE_ok]
    exact ⟨_, rfl, by (repeat' apply append_ne_empty_left); decide⟩
  -- geo
  · obtain ⟨v1, hv1, hn1⟩ := hreq "lat" (by decide)
    obtain ⟨v2, hv2, hn2⟩ := hreq "lon" (by decide)
    refine case_finish rfl (by simp [paramMissingB_false hv1 hn1,
      paramMissingB_false hv2 hn2]) ?_
    show ∃ out, build_geo p = Except.ok out ∧ out ≠ ""
    unfold build_geo
    simp only [pyRequire_ok hv1 hn1, pyRequire_ok hv2 hn2, bindE_ok, pureE]
    exact ⟨_, rfl, by (repeat' apply append_ne_empty_left); decide⟩
  -- google-maps
  · obtain ⟨v1, hv1, hn1⟩ := hreq "lat" (by decide)
    obtain ⟨v2, hv2, hn2⟩ := hreq "lon" (by decide)
    refine case_finish rfl (by simp [paramMissingB_false hv1 hn1,
      paramMissingB_false hv2 hn2]) ?_
    show ∃ out, build_google_maps p = Except.ok out ∧ out ≠ ""
    unfold build_google_maps
    simp only [pyRequire_ok hv1 hn1, pyRequire_ok hv2 hn2, bindE_ok, pureE]
    exact ⟨_, rfl, by (repeat' apply append_ne_empty_left); decide⟩
  -- wifi-wpa
  · obtain ⟨v1, hv1, hn1⟩ := hreq "ssid" (by decide)
    obtain ⟨v2, hv2, hn2⟩ := hreq "password" (by decide)
    refine case_finish rfl (by simp [paramMissingB_false hv1 hn1,
      paramMissingB_false hv2 hn2]) ?_
    show ∃ out, build_wifi p "WPA" = Except.ok out ∧ out ≠ ""
    unfold build_wifi
    simp only [pyRequire_ok hv1 hn1, bindE_ok, pureE]
    exact ⟨_, rfl, by
      apply pyJoin_cons_ne_empty
      (repeat' apply append_ne_empty_left); decide⟩
  -- wifi-wpa2
  · obtain ⟨v1, hv1, hn1⟩ := hreq "ssid" (by decide)
    obtain ⟨v2, hv2, hn2⟩ := hreq "password" (by decide)
    refine case_finish rfl (by simp [paramMissingB_false hv1 hn1,
      paramMissingB_false hv2 hn2]) ?_
    show ∃ out, build_wifi p "WPA2" = Except.ok out ∧ out ≠ ""
    unfold build_wifi
    simp only [pyRequire_ok hv1 hn1, bindE_ok, pureE]
    exact ⟨_, rfl, by
      apply pyJoin_cons_ne_empty
      (repeat' apply append_ne_empty_left); decide⟩
  -- wifi-wep
  · obtain ⟨v1, hv1, hn1⟩ := hreq "ssid" (by decide)
    obtain ⟨v2, hv2, hn2⟩ := hreq "password" (by decide)
    refine case_finish rfl (by simp [paramMissingB_false hv1 hn1,
      paramMissingB_false hv2 hn2]) ?_
    show ∃ out, build_wifi p "WEP" = Except.ok out ∧ out ≠ ""
    unfold build_wifi
    simp only [pyRequire_ok hv1 hn1, bindE_ok, pureE]
    exact ⟨_, rfl, by
      apply pyJoin_cons_ne_empty
      (repeat' apply append_ne_empty_left); decide⟩
  -- wifi-nopass
  · obtain ⟨v1, hv1, hn1⟩ := hreq "ssid" (by decide)
    refine case_finish rfl (by simp [paramMissingB_false hv1 hn1]) ?_
    show ∃ out, build_wifi p "nopass" = Except.ok out ∧ out ≠ ""
    unfold build_wifi
    simp only [pyRequire_ok hv1 hn1, bindE_ok, pureE]
    exact ⟨_, rfl, by
      apply pyJoin_cons_ne_empty
      (repeat' apply append_ne_empty_left); decide⟩
  -- vcard
  · obtain ⟨v, hv, hn⟩ := hreq "name" (by decide)
    refine case_finish rfl (by simp [paramMissingB_false hv hn]) ?_
    show ∃ out, build_vcard p = Except.ok out ∧ out ≠ ""
    unfold build_vcard
    simp only [pyRequire_ok hv hn, bindE_ok, pureE]
    exact ⟨_, rfl, by
      apply pyJoin_cons_ne_empty
      decide⟩
  -- mecard
  · obtain ⟨v, hv, hn⟩ := hreq "name" (by decide)
    refine case_finish rfl (by simp [paramMissingB_false hv hn]) ?_
    show ∃ out, build_mecard p = Except.ok out ∧ out ≠ ""
    unfold build_mecard
    simp only [pyRequire_ok hv hn, bindE_ok, pureE]
    exact ⟨_, rfl, by
      apply pyJoin_cons_ne_empty
      (repeat' apply append_ne_empty_left); decide⟩
  -- event-ics
  · obtain ⟨v1, hv1, hn1⟩ := hreq "summary" (by decide)
    obtain ⟨v2, hv2, hn2⟩ := hreq "dtstart" (by decide)
    refine case_finish rfl (by simp [paramMissingB_false hv1 hn1,
      paramMissingB_false hv2 hn2]) ?_
    show ∃ out, build_ics_event p = Except.ok out ∧ out ≠ ""
    unfold build_ics_event
    simp only [pyRequire_ok hv1 hn1, pyRequire_ok hv2 hn2, bindE_ok, pureE]
    exact ⟨_, rfl, by
      apply pyJoin_cons_ne_empty
      decide⟩
  -- event-google-calendar
  · obtain ⟨v1, hv1, hn1⟩ := hreq "text" (by decide)
    obtain ⟨v2, hv2, hn2⟩ := hreq "start" (by decide)
    obtain ⟨v3, hv3, hn3⟩ := hreq "end" (by decide)
    refine case_finish rfl (by simp [paramMissingB_false hv1 hn1,
      paramMissingB_false hv2 hn2, paramMissingB_false hv3 hn3]) ?_
    show ∃ out, build_google_calendar_link p = Except.ok out ∧ out ≠ ""
    unfold build_google_calendar_link
    simp only [pyRequire_ok hv1 hn1, pyRequire_ok hv2 hn2, pyRequire_ok hv3 hn3,
      bindE_ok, pureE]
    exact ⟨_, rfl, by (repeat' apply append_ne_empty_left); decide⟩
  -- bitcoin
  · obtain ⟨v, hv, hn⟩ := hreq "address" (by decide)
    refine case_finish rfl (by simp [paramMissingB_false hv hn]) ?_
    show ∃ out, build_crypto_uri p "bitcoin" = Except.ok out ∧ out ≠ ""
    unfold build_crypto_uri
    simp only [pyRequire_ok hv hn, bindE_ok, pureE]
    exact ⟨_, rfl, by (repeat' apply append_ne_empty_left); decide⟩
  -- ethereum
  · obtain ⟨v, hv, hn⟩ := hreq "address" (by decide)
    refine case_finish rfl (by simp [paramMissingB_false hv hn]) ?_
    show ∃ out, build_crypto_uri p "ethereum" = Except.ok out ∧ out ≠ ""
    unfold build_crypto_uri
    simp only [pyRequire_ok hv hn, bindE_ok, pureE]
    exact ⟨_, rfl, by (repeat' apply append_ne_empty_left); decide⟩
  -- litecoin
  · obtain ⟨v, hv, hn⟩ := hreq "address" (by decide)
    refine case_finish rfl (by simp [paramMissingB_false hv hn]) ?_
    show ∃ out, build_crypto_uri p "litecoin" = Except.ok out ∧ out ≠ ""
    unfold build_crypto_uri
    simp only [pyRequire_ok hv hn, bindE_ok, pureE]
    exact ⟨_, rfl, by (repeat' apply append_ne_empty_left); decide⟩
  -- paypal-me
  · obtain ⟨v, hv, hn⟩ := hreq "username" (by decide)
    refine case_finish rfl (by simp [paramMissingB_false hv hn]) ?_
    show ∃ out, build_paypal_me p = Except.ok out ∧ out ≠ ""
    unfold build_paypal_me
    simp only [pyRequire_ok hv hn, bindE_ok, pureE]
    exact ⟨_, rfl, by (repeat' apply append_ne_empty_left); decide⟩
  -- upi
  · obtain ⟨v1, hv1, hn1⟩ := hreq "pa" (by decide)
    obtain ⟨v2, hv2, hn2⟩ := hreq "pn" (by decide)
    refine case_finish rfl (by simp [paramMissingB_false hv1 hn1,
      paramMissingB_false hv2 hn2]) ?_
    show ∃ out, build_upi p = Except.ok out ∧ out ≠ ""
    unfold build_upi
    simp only [pyRequire_ok hv1 hn1, pyRequire_ok hv2 hn2, bindE_ok, pureE]
    exact ⟨_, rfl, by (repeat' apply append_ne_empty_left); decide⟩
  -- sepa-credit-transfer
  · obtain ⟨v1, hv1, hn1⟩ := hreq "name" (by decide)
    obtain ⟨v2, hv2, hn2⟩ := hreq "iban" (by decide)
    obtain ⟨v3, hv3, hn3⟩ := hreq "bic" (by decide)
    obtain ⟨v4, hv4, hn4⟩ := hreq "amount" (by decide)
    refine case_finish rfl (by simp [paramMissingB_false hv1 hn1,
      paramMissingB_false hv2 hn2, paramMissingB_false hv3 hn3,
      paramMissingB_false hv4 hn4]) ?_
    show ∃ out, build_sepa p = Except.ok out ∧ out ≠ ""
    unfold build_sepa
    simp only [pyRequire_ok hv1 hn1, pyRequire_ok hv2 hn2, pyRequire_ok hv3 hn3,
      pyRequire_ok hv4 hn4, bindE_ok, pureE]
    exact ⟨_, rfl, by
      apply pyJoin_cons_ne_empty
      decide⟩
  -- linkedin
  · obtain ⟨v, hv, hn⟩ := hreq "handle" (by decide)
    refine case_finish rfl (by simp [paramMissingB_false hv hn]) ?_
    show ∃ out, build_social_url p "https://www.linkedin.com/in" "handle" =
      Except.ok out ∧ out ≠ ""
    unfold build_social_url
    simp only [pyRequire_ok hv hn, bindE_ok, pureE]
    exact ⟨_, rfl, by (repeat' apply append_ne_empty_left); decide⟩
  -- github
  · obtain ⟨v, hv, hn⟩ := hreq "handle" (by decide)
    refine case_finish rfl (by simp [paramMissingB_false hv hn]) ?_
    show ∃ out, build_social_url p "https://github.com" "handle" = Except.ok out ∧ out ≠ ""
    unfold build_social_url
    simp only [pyRequire_ok hv hn, bindE_ok, pureE]
    exact ⟨_, rfl, by (repeat' apply append_ne_empty_left); decide⟩
  -- twitter
  · obtain ⟨v, hv, hn⟩ := hreq "handle" (by decide)
    refine case_finish rfl (by simp [paramMissingB_false hv hn]) ?_
    show ∃ out, build_social_url p "https://twitter.com" "handle" = Except.ok out ∧ out ≠ ""
    unfold build_social_url
    simp only [pyRequire_ok hv hn, bindE_ok, pureE]
    exact ⟨_, rfl, by (repeat' apply append_ne_empty_left); decide⟩
  -- facebook
  · obtain ⟨v, hv, hn⟩ := hreq "handle" (by decide)
    refine case_finish rfl (by simp [paramMissingB_false hv hn]) ?_
    show ∃ out, build_social_url p "https://facebook.com" "handle" = Except.ok out ∧ out ≠ ""
    unfold build_social_url
    simp only [pyRequire_ok hv hn, bindE_ok, pureE]
    exact ⟨_, rfl, by (repeat' apply append_ne_empty_left); decide⟩
  -- instagram
  · obtain ⟨v, hv, hn⟩ := hreq "handle" (by decide)
    refine case_finish rfl (by simp [paramMissingB_false hv hn]) ?_
    show ∃ out, build_social_url p "https://instagram.com" "handle" = Except.ok out ∧ out ≠ ""
    unfold build_social_url
    simp only [pyRequire_ok hv hn, bindE_ok, pureE]
    exact ⟨_, rfl, by (repeat' apply append_ne_empty_left); decide⟩
  -- youtube
  · obtain ⟨v, hv, hn⟩ := hreq "handle" (by decide)
    refine case_finish rfl (by simp [paramMissingB_false hv hn]) ?_
    show ∃ out, (pyRequire p "handle").map (fun h =>
      "https://youtube.com/@" ++ pyQuote (lstripChars h ['@'])) = Except.ok out ∧ out ≠ ""
    simp only [pyRequire_ok hv hn, mapE_ok]
    exact ⟨_, rfl, by (repeat' apply append_ne_empty_left); decide⟩
  -- discord
  · obtain ⟨v, hv, hn⟩ := hreq "invite" (by decide)
    refine case_finish rfl (by simp [paramMissingB_false hv hn]) ?_
    show ∃ out, build_discord_invite p = Except.ok out ∧ out ≠ ""
    unfold build_discord_invite
    simp only [pyRequire_ok hv hn, bindE_ok, pureE]
    exact ⟨_, rfl, by (repeat' apply append_ne_empty_left); decide⟩
  -- slack
  · obtain ⟨v, hv, hn⟩ := hreq "channel" (by decide)
    refine case_finish rfl (by simp [paramMissingB_false hv hn]) ?_
    show ∃ out, build_slack_channel p = Except.ok out ∧ out ≠ ""
    unfold build_slack_channel
    simp only [pyRequire_ok hv hn, bindE_ok, pureE]
    exact ⟨_, rfl, by (repeat' apply append_ne_empty_left); decide⟩
  -- zoom-meeting
  · obtain ⟨v, hv, hn⟩ := hreq "meeting_id" (by decide)
    refine case_finish rfl (by simp [paramMissingB_false hv hn]) ?_
    show ∃ out, build_zoom p = Except.ok out ∧ out ≠ ""
    unfold build_zoom
    simp only [pyRequire_ok hv hn, bindE_ok, pureE]
    exact ⟨_, rfl, by (repeat' apply append_ne_empty_left); decide⟩
  -- spotify-track
  · obtain ⟨v, hv, hn⟩ := hreq "track_id" (by decide)
    refine case_finish rfl (by simp [paramMissingB_false hv hn]) ?_
    show ∃ out, build_spotify_track p = Except.ok out ∧ out ≠ ""
    unfold build_spotify_track
    simp only [pyRequire_ok hv hn, bindE_ok, pureE]
    exact ⟨_, rfl, by (repeat' apply append_ne_empty_left); decide⟩
  -- appstore
  · obtain ⟨v, hv, hn⟩ := hreq "app_id" (by decide)
    refine case_finish rfl (by simp [paramMissingB_false hv hn]) ?_
    show ∃ out, build_appstore p = Except.ok out ∧ out ≠ ""
    unfold build_appstore
    simp only [pyRequire_ok hv hn, bindE_ok, pureE]
    exact ⟨_, rfl, by (repeat' apply append_ne_empty_left); decide⟩
  -- googleplay
  · obtain ⟨v, hv, hn⟩ := hreq "package" (by decide)
    refine case_finish rfl (by simp [paramMissingB_false hv hn]) ?_
    show ∃ out, build_googleplay p = Except.ok out ∧ out ≠ ""
    unfold build_googleplay
    simp only [pyRequire_ok hv hn, bindE_ok, pureE]
    exact ⟨_, rfl, by (repeat' apply append_ne_empty_left); decide⟩
  -- app-deeplink
  · obtain ⟨v1, hv1, hn1⟩ := hreq "scheme" (by decide)
    obtain ⟨v2, hv2, hn2⟩ := hreq "path" (by decide)
    refine case_finish rfl (by simp [paramMissingB_false hv1 hn1,
      paramMissingB_false hv2 hn2]) ?_
    show ∃ out, build_deeplink p = Except.ok out ∧ out ≠ ""
    unfold build_deeplink
    simp only [pyRequire_ok hv1 hn1, pyRequire_ok hv2 hn2, bindE_ok, pureE]
    exact ⟨_, rfl, by (repeat' apply append_ne_empty_left); assumption⟩
  -- json
  · obtain ⟨v, hv, hn⟩ := hreq "json" (by decide)
    refine ⟨?_, fun hk _ _ _ => absurd rfl hk⟩
    intro s hs
    have hb := case_forward hs rfl (by simp [paramMissingB_false hv hn])
    replace hb : build_json p = Except.ok s := hb
    unfold build_json at hb
    rw [pyRequire_ok hv hn] at hb
    replace hb : (match jsonLoads v with
      | some w => Except.ok (String.mk (dumpJson w))
      | none => Except.error BuildError.jsonDecodeError) = Except.ok s := hb
    cases hl : jsonLoads v with
    | none =>
      rw [hl] at hb
      exact Except.noConfusion hb
    | some w =>
      rw [hl] at hb
      injection hb with hb
      rw [← hb, str_ne_empty_iff]
      exact dumpJson_ne_nil w
  -- csv-row
  · obtain ⟨v, hv, hn⟩ := hreq "values" (by decide)
    refine case_finish rfl (by simp [paramMissingB_false hv hn]) ?_
    show ∃ out, build_csv_row p = Except.ok out ∧ out ≠ ""
    unfold build_csv_row
    simp only [pyRequire_ok hv hn, bindE_ok, pureE]
    exact ⟨_, rfl, hn⟩
  -- markdown-link
  · obtain ⟨v1, hv1, hn1⟩ := hreq "text" (by decide)
    obtain ⟨v2, hv2, hn2⟩ := hreq "url" (by decide)
    refine case_finish rfl (by simp [paramMissingB_false hv1 hn1,
      paramMissingB_false hv2 hn2]) ?_
    show ∃ out, build_markdown_link p = Except.ok out ∧ out ≠ ""
    unfold build_markdown_link
    simp only [pyRequire_ok hv1 hn1, pyRequire_ok hv2 hn2, bindE_ok, pureE]
    exact ⟨_, rfl, by (repeat' apply append_ne_empty_left); decide⟩
  -- otp-totp
  · obtain ⟨v1, hv1, hn1⟩ := hreq "label" (by decide)
    obtain ⟨v2, hv2, hn2⟩ := hreq "secret" (by decide)
    refine case_finish rfl (by simp [paramMissingB_false hv1 hn1,
      paramMissingB_false hv2 hn2]) ?_
    show ∃ out, build_otpauth_totp p = Except.ok out ∧ out ≠ ""
    unfold build_otpauth_totp
    simp only [pyRequire_ok hv1 hn1, pyRequire_ok hv2 hn2, bindE_ok, pureE]
    exact ⟨_, rfl, by (repeat' apply append_ne_empty_left); decide⟩
  -- otp-hotp
  · obtain ⟨v1, hv1, hn1⟩ := hreq "label" (by decide)
    obtain ⟨v2, hv2, hn2⟩ := hreq "secret" (by decide)
    obtain ⟨v3, hv3, hn3⟩ := hreq "counter" (by decide)
    refine case_finish rfl (by simp [paramMissingB_false hv1 hn1,
      paramMissingB_false hv2 hn2, paramMissingB_false hv3 hn3]) ?_
    show ∃ out, build_otpauth_hotp p = Except.ok out ∧ out ≠ ""
    unfold build_otpauth_hotp
    simp only [pyRequire_ok hv1 hn1, pyRequire_ok hv2 hn2, pyRequire_ok hv3 hn3,
      bindE_ok, pureE]
    exact ⟨_, rfl, by (repeat' apply append_ne_empty_left); decide⟩
  -- eicar-test
  · refine case_finish rfl (by simp) ?_
    exact ⟨EICAR_STRING, rfl, by decide⟩
  -- safe-demo-sentry
  · refine case_finish rfl (by simp) ?_
    exact ⟨"https://sentry.io", rfl, by decide⟩
  -- custom-prefix
  · obtain ⟨v1, hv1, hn1⟩ := hreq "prefix" (by decide)
    obtain ⟨v2, hv2, hn2⟩ := hreq "value" (by decide)
    refine case_finish rfl (by simp [paramMissingB_false hv1 hn1,
      paramMissingB_false hv2 hn2]) ?_
    show ∃ out, build_custom_prefix p = Except.ok out ∧ out ≠ ""
    unfold build_custom_prefix
    simp only [pyRequire_ok hv1 hn1, pyRequire_ok hv2 hn2, bindE_ok, pureE]
    exact ⟨_, rfl, by (repeat' apply append_ne_empty_left); assumption⟩

/-- Witness for C3: the `text` template on a concrete mapping. -/
theorem c3_witness :
    ∃ s, build_payload "text" [("text", "hi")] = Except.ok s ∧ s ≠ "" :=
  (c3_builders_nonempty
    (Template.mk "text" "Plain text" ["text"] [] (fun p => pyRequire p "text"))
    (List.Mem.head _) [("text", "hi")]
    (by
      intro k hk
      simp at hk
      subst hk
      exact ⟨"hi", rfl, by decide⟩)
    (by simp)).2 (by decide) (by decide) (by decide) (by decide)

end VirsQR
